import Mathlib

/-!
Verification of the per-domain job/state coordination subsystem of the
libvirt-0.10.2 qemu driver (`src/qemu/qemu_driver.c`), as a shallow
embedding: each driver-level C function is translated into a Lean
function over an explicit oracle recording the outcomes of its external
calls (monitor commands, file I/O, job admission), and the properties of
the specification are proved about these translations.
-/

namespace QemuDrv

/-! ## Save-image header (qemu_driver.c lines 2570-2616) -/

def QEMUD_SAVE_MAGIC : String := "LibvirtQemudSave"

def QEMUD_SAVE_PARTIAL_MAGIC : String := "LibvirtQemudPart"

def QEMUD_SAVE_VERSION : Nat := 2

/-- `struct qemud_save_header` (line 2601): magic bytes plus four uint32
fields (the 15 unused words are zero and omitted). -/
structure SaveHeader where
  magic : String
  version : Nat
  xml_len : Nat
  was_running : Nat
  compressed : Nat
  deriving DecidableEq

/-- `bswap_32` on a 32-bit value, byte reversal (used by `bswap_header`). -/
def bswap32 (n : Nat) : Nat :=
  (n % 256) * 16777216 + (n / 256 % 256) * 65536 +
    (n / 65536 % 256) * 256 + (n / 16777216) % 256

/-- `bswap_header` (line 2610): byte-swaps the four uint32 fields. -/
def bswap_header (h : SaveHeader) : SaveHeader :=
  { h with
    version := bswap32 h.version
    xml_len := bswap32 h.xml_len
    was_running := bswap32 h.was_running
    compressed := bswap32 h.compressed }

/-- sizeof(struct qemud_save_header): 16 magic bytes + 19 uint32 words. -/
def SAVE_HEADER_SIZE : Nat := 92

/-! ## Model of the on-disk save file -/

/-- State of the save file on disk: the header region (none = nothing
durable written there yet), the padded XML blob region, and whether the
migration stream has been appended. -/
structure FileModel where
  hdr : Option SaveHeader
  xmlBytes : Option Nat
  memImage : Bool
  deriving DecidableEq

/-- Outcomes of the external calls made by `qemuDomainSaveMemory`
(lines 2771-2895), in program order. -/
structure SMOracle where
  allocOk : Bool
  bypassCache : Bool
  directFlagOk : Bool
  openOk : Bool
  wrapperNewOk : Bool
  writeHeaderOk : Bool
  writeXmlOk : Bool
  migrateOk : Bool
  closeOk : Bool
  wrapperCloseOk : Bool
  reopenOk : Bool
  rewriteOk : Bool
  close2Ok : Bool
  deriving DecidableEq

/-- Result of `qemuDomainSaveMemory`: return value, final file state,
the sequence of header writes performed, and (ghost) the file state
right after the migration stream finished. -/
structure SMResult where
  ret : Int
  file : Option FileModel
  writes : List SaveHeader
  fileAtMigrated : Option FileModel
  deriving DecidableEq

/-- XML padding (lines 2812-2814): `pad = 1024; pad += bs - ((offset + pad) % bs)`
with `offset = sizeof(header) + len`. -/
def smPad (len bs : Nat) : Nat :=
  1024 + (bs - ((SAVE_HEADER_SIZE + len + 1024) % bs))

/-- The cleanup tail of `qemuDomainSaveMemory` (lines 2884-2894):
`if (ret != 0 && needUnlink) unlink(path)`. -/
def smCleanup (ret : Int) (needUnlink : Bool) (file : Option FileModel)
    (writes : List SaveHeader) (atMig : Option FileModel) : SMResult :=
  { ret := ret
    file := if ret ≠ 0 && needUnlink then none else file
    writes := writes
    fileAtMigrated := atMig }

/-- Shallow embedding of `qemuDomainSaveMemory` (lines 2771-2895).
`domXMLlen` is `strlen(domXML)`, `bs` is `QEMU_MONITOR_MIGRATE_TO_FILE_BS`,
`pre` is the file previously on disk at `path` (if any).  `needUnlink`
becomes true as soon as `qemuOpenFile` is called with `O_CREAT`
(qemuOpenFile line 2672 sets it before attempting the open). -/
def qemuDomainSaveMemory (o : SMOracle) (domXMLlen compressed : Nat)
    (was_running : Bool) (bs : Nat) (pre : Option FileModel) : SMResult :=
  -- lines 2794-2799: header filled in with the PARTIAL magic
  let header : SaveHeader :=
    { magic := QEMUD_SAVE_PARTIAL_MAGIC
      version := QEMUD_SAVE_VERSION
      xml_len := 0
      was_running := if was_running then 1 else 0
      compressed := compressed }
  let len := domXMLlen + 1
  -- line 2815: VIR_ALLOC_N(xml, len + pad) may fail
  if !o.allocOk then smCleanup (-1) false pre [] none
  else
  -- line 2822: header.xml_len = len
  let header := { header with xml_len := len }
  -- lines 2825-2833: bypass-cache direct flag
  if o.bypassCache && !o.directFlagOk then smCleanup (-1) false pre [] none
  else
  -- line 2834: qemuOpenFile(O_WRONLY|O_TRUNC|O_CREAT): needUnlink := true
  if !o.openOk then smCleanup (-1) true pre [] none
  else
  -- open with O_TRUNC succeeded: file now exists and is empty
  let file : Option FileModel := some ⟨none, none, false⟩
  if !o.wrapperNewOk then smCleanup (-1) true file [] none
  else
  -- line 2843: qemuDomainSaveHeader writes the header, then the XML
  if !o.writeHeaderOk then smCleanup (-1) true file [] none
  else
  let file : Option FileModel := some ⟨some header, none, false⟩
  let writes := [header]
  if !o.writeXmlOk then smCleanup (-1) true file writes none
  else
  let file : Option FileModel := some ⟨some header, some (len + smPad len bs), false⟩
  -- line 2847: qemuMigrationToFile
  if !o.migrateOk then smCleanup (-1) true file writes none
  else
  let file : Option FileModel := some ⟨some header, some (len + smPad len bs), true⟩
  -- lines 2859-2868: close fd, close wrapper, reopen O_WRONLY
  if !o.closeOk then smCleanup (-1) true file writes file
  else
  if !o.wrapperCloseOk then smCleanup (-1) true file writes file
  else
  if !o.reopenOk then smCleanup (-1) true file writes file
  else
  -- line 2870: memcpy(header.magic, QEMUD_SAVE_MAGIC, ...)
  let header2 := { header with magic := QEMUD_SAVE_MAGIC }
  -- line 2872: safewrite of the completed header at file offset 0
  if !o.rewriteOk then smCleanup (-1) true file writes file
  else
  let file2 : Option FileModel := some ⟨some header2, some (len + smPad len bs), true⟩
  let writes := writes ++ [header2]
  if !o.close2Ok then smCleanup (-1) true file2 writes file
  else
  smCleanup 0 true file2 writes file

/-! ## Error identities reported via virReportError -/

inductive ErrMsg where
  | noDomain
  | notRunning
  | bypassCacheUnsupported
  | openFailed
  | wrapperFailed
  | failedReadHeader
  | cannotRemoveCorrupt
  | imageMagicIncorrect
  | saveImageIncomplete
  | versionUnsupported
  | invalidXmlLen
  | oom
  | failedReadXml
  | closeFailed
  | parseFailed
  | abiMismatch
  | noJobActive
  | cannotAbortIncoming
  | domainDisappeared
  | guestQuit
  | autoDestroyActive
  | blockCopyActive
  | pmsuspended
  | killFailed
  | cannotRemoveManagedSave
  deriving DecidableEq

/-! ## qemuDomainSaveImageOpen (lines 4807-4949) and its callers -/

/-- Outcomes of the external calls made by `qemuDomainSaveImageOpen`. -/
structure ImgOracle where
  bypassCache : Bool
  directFlagOk : Bool
  openOk : Bool
  wrapperNewOk : Bool
  readHeaderOk : Bool
  closeOk : Bool
  unlinkOk : Bool
  allocOk : Bool
  readXmlOk : Bool
  xmlMatchesXmlin : Bool
  closeOk2 : Bool
  parseOk : Bool
  parse2Ok : Bool
  abiOk : Bool
  deriving DecidableEq

/-- Return of `qemuDomainSaveImageOpen`: `ok` is a non-negative fd with
the parsed definition and (possibly byte-swapped / edited) header,
`err` is -1 with an error raised, `unlinked` is the distinguished -3
(corrupt image silently removed), `noChange` is -2 (edit requested no
change). -/
inductive ImgOpenRes where
  | ok (hdr : SaveHeader)
  | err (e : ErrMsg)
  | unlinked
  | noChange
  deriving DecidableEq

def ImgOpenRes.isOk : ImgOpenRes → Bool
  | .ok _ => true
  | _ => false

/-- Shallow embedding of `qemuDomainSaveImageOpen` (lines 4807-4949).
`hdr` is the header read from the file when the read succeeds; `st` is
the `state` argument (-1 for no change), `edit` and `unlink_corrupt`
the corresponding flags. -/
def qemuDomainSaveImageOpen (o : ImgOracle) (hdr : SaveHeader)
    (xmlinGiven : Bool) (st : Int) (edit unlink_corrupt : Bool) : ImgOpenRes :=
  -- lines 4823-4831: bypass-cache direct flag
  if o.bypassCache && !o.directFlagOk then .err .bypassCacheUnsupported
  else if !o.openOk then .err .openFailed
  else if o.bypassCache && !o.wrapperNewOk then .err .wrapperFailed
  -- lines 4840-4853: read the header
  else if !o.readHeaderOk then
    (if unlink_corrupt then
       (if o.closeOk && o.unlinkOk then .unlinked else .err .cannotRemoveCorrupt)
     else .err .failedReadHeader)
  -- lines 4855-4873: magic check; PARTIAL magic is never usable
  else if hdr.magic ≠ QEMUD_SAVE_MAGIC then
    (if hdr.magic = QEMUD_SAVE_PARTIAL_MAGIC then
       (if unlink_corrupt then
          (if o.closeOk && o.unlinkOk then .unlinked else .err .cannotRemoveCorrupt)
        else .err .saveImageIncomplete)
     else .err .imageMagicIncorrect)
  else
    -- lines 4875-4885: endianness conversion and version check
    let hdr := if hdr.version > QEMUD_SAVE_VERSION then bswap_header hdr else hdr
    if hdr.version > QEMUD_SAVE_VERSION then .err .versionUnsupported
    -- lines 4887-4902: xml length and read
    else if hdr.xml_len = 0 then .err .invalidXmlLen
    else if !o.allocOk then .err .oom
    else if !o.readXmlOk then .err .failedReadXml
    -- lines 4904-4912: edit with no change returns -2
    else if edit && o.xmlMatchesXmlin && (st < 0 || st = (hdr.was_running : Int)) then
      (if o.closeOk2 then .noChange else .err .closeFailed)
    else
      -- lines 4913-4934: state override, then parse the definitions
      let hdr := if st ≥ 0 then { hdr with was_running := st.toNat } else hdr
      if !o.parseOk then .err .parseFailed
      else if xmlinGiven && !o.parse2Ok then .err .parseFailed
      else if xmlinGiven && !o.abiOk then .err .abiMismatch
      else .ok hdr

/-- Shallow embedding of `qemuDomainObjRestore` (lines 5244-5294): opens
the image with `unlink_corrupt = true`; returns 1 when the incomplete
image was silently unlinked, 0 on successful restore, -1 on failure. -/
def qemuDomainObjRestore (o : ImgOracle) (hdr : SaveHeader)
    (nameUuidMatch startVMOk : Bool) : Int :=
  match qemuDomainSaveImageOpen o hdr false (-1) false true with
  | .unlinked => 1
  | .ok _ =>
      if !nameUuidMatch then -1
      else if startVMOk then 0 else -1
  | _ => -1

/-! ## Trace events emitted by the driver functions -/

/-- Migration phases of the Async-Job Phase Tracker
(`enum qemuMigrationJobPhase`; qemu_migration.h is not part of this
tree, so the phases named by the spec and the driver are modelled from
the spec: BEGIN3 → (PERFORM3) → CONFIRM3 or CONFIRM3_CANCELLED). -/
inductive MigPhase where
  | none | begin3 | perform3 | confirm3_cancelled | confirm3
  deriving DecidableEq

inductive Ev where
  | beginJob (ok : Bool)
  | beginAsync (ok : Bool)
  | endJob (pos : Bool)
  | endAsync (pos : Bool)
  | removeInactive
  | unlockVm
  | stopCPUs (ok : Bool)
  | startCPUs (ok : Bool)
  | processStop
  | processStart (ok : Bool)
  | enterMon
  | exitMon
  | migrateCancel (ok : Bool)
  | abortFlag
  | memsetJobInfo
  | setJobInfoUnbounded
  | saveMemoryCall (ret : Int)
  | setMask (m : Nat)
  | saveMem (mask : Nat) (ok : Bool)
  | diskSnap (mask : Nat) (ok : Bool)
  | warnIncompleteManagedSave
  | unlinkManagedSave
  | jobStartEv
  | jobContinueEv (pos : Bool)
  | jobFinishEv (pos : Bool)
  | startPhase (p : MigPhase)
  | closeCbSet
  | closeCbUnset
  deriving DecidableEq

/-- Result of a driver-level operation: libvirt return code, whether the
local `vm` pointer is NULL when the function returns, the last error
raised, and the event trace. -/
structure DrvRes where
  ret : Int
  vmNull : Bool
  err : Option ErrMsg
  trace : List Ev
  deriving DecidableEq

/-- Tail of `qemuDomainObjStart`'s managed-save handling plus the boot
path (lines 5606-5624): start the process from scratch. -/
def startBoot (processStartOk : Bool) (tr : List Ev) : DrvRes :=
  { ret := if processStartOk then 0 else -1
    vmNull := false
    err := if processStartOk then none else some .openFailed
    trace := tr ++ [.processStart processStartOk] }

/-- Shallow embedding of the managed-save portion of `qemuDomainObjStart`
(lines 5552-5629).  When a managed save exists and `force_boot` is not
set, the domain is restored via `qemuDomainObjRestore`; a return of 1
(incomplete image unlinked) is only warned about and the domain boots
from scratch. -/
def qemuDomainObjStart (o : ImgOracle) (hdr : SaveHeader)
    (nameUuidMatch startVMOk : Bool)
    (managedSaveExists forceBoot unlinkManagedOk processStartOk : Bool) : DrvRes :=
  if managedSaveExists then
    if forceBoot then
      -- lines 5581-5587: remove the managed save file, then boot
      if !unlinkManagedOk then
        { ret := -1, vmNull := false, err := some .cannotRemoveManagedSave, trace := [] }
      else startBoot processStartOk [.unlinkManagedSave]
    else
      -- lines 5589-5602
      let r := qemuDomainObjRestore o hdr nameUuidMatch startVMOk
      if r > 0 then startBoot processStartOk [.warnIncompleteManagedSave]
      else
        { ret := r, vmNull := false, err := none
          trace := if r = 0 then [.unlinkManagedSave] else [] }
  else startBoot processStartOk []

/-! ## qemuDomainSaveInternal (lines 2903-3021) -/

/-- Outcomes of the external calls made by `qemuDomainSaveInternal`,
in program order. -/
structure SIOracle where
  autoDestroy : Bool
  hasDiskMirror : Bool
  beginAsyncOk : Bool
  stateRunning : Bool
  stopCPUsOk : Bool
  activeAfterStop : Bool
  flagRunning : Bool
  flagPaused : Bool
  xmlinGiven : Bool
  parseOk : Bool
  abiOk : Bool
  formatOk : Bool
  persistent : Bool
  endAsyncPos : Bool
  activeAtEnd : Bool
  startCPUsOk : Bool
  sm : SMOracle
  deriving DecidableEq

/-- The `cleanup:` tail of `qemuDomainSaveInternal` (lines 3014-3020). -/
def siCleanup (ret : Int) (vm : Bool) (err : Option ErrMsg) (tr : List Ev) : DrvRes :=
  { ret := ret, vmNull := !vm, err := err
    trace := tr ++ if vm then [.unlockVm] else [] }

/-- The `endjob:` tail of `qemuDomainSaveInternal` (lines 2995-3012). -/
def siEndjob (o : SIOracle) (ret : Int) (vm : Bool) (was_running : Bool)
    (err : Option ErrMsg) (tr : List Ev) : DrvRes :=
  if vm then
    let tr := tr ++
      (if ret ≠ 0 && (was_running && o.activeAtEnd) then [Ev.startCPUs o.startCPUsOk] else [])
      ++ [Ev.endAsync o.endAsyncPos]
    if !o.endAsyncPos then siCleanup ret false err tr
    else siCleanup ret true err tr
  else siCleanup ret false err tr

/-- Shallow embedding of `qemuDomainSaveInternal` (lines 2903-3021),
translated exactly as written.  NOTE what the source really does at
lines 2926-2929: the `if (qemuDomainObjBeginAsyncJobWithDriver(...) < 0)`
statement governs only the `memset` of `priv->job.info` — there is no
`goto` in its body — so execution continues into the save logic whether
or not admission of the SAVE async job succeeded. -/
def qemuDomainSaveInternal (o : SIOracle) (domXMLlen compressed bs : Nat)
    (pre : Option FileModel) : DrvRes :=
  -- lines 2915-2924
  if o.autoDestroy then siCleanup (-1) true (some .autoDestroyActive) []
  else if o.hasDiskMirror then siCleanup (-1) true (some .blockCopyActive) []
  else
  -- lines 2926-2930: dangling if — memset runs exactly when admission
  -- failed, and control falls through in both cases
  let tr := [Ev.beginAsync o.beginAsyncOk]
    ++ (if !o.beginAsyncOk then [Ev.memsetJobInfo] else [])
    ++ [Ev.setJobInfoUnbounded]
  -- lines 2932-2944: pause the guest CPUs
  let was_running := o.stateRunning
  let tr := tr ++ (if o.stateRunning then [Ev.stopCPUs o.stopCPUsOk] else [])
  if o.stateRunning && !o.stopCPUsOk then siEndjob o (-1) true was_running none tr
  else if o.stateRunning && !o.activeAfterStop then
    siEndjob o (-1) true was_running (some .guestQuit) tr
  else
  -- lines 2946-2950
  let was_running := if o.flagRunning then true
    else if o.flagPaused then false else was_running
  -- lines 2952-2976: obtain the domain XML
  if o.xmlinGiven && !o.parseOk then siEndjob o (-1) true was_running (some .parseFailed) tr
  else if o.xmlinGiven && !o.abiOk then siEndjob o (-1) true was_running (some .abiMismatch) tr
  else if !o.formatOk then siEndjob o (-1) true was_running (some .openFailed) tr
  else
  -- line 2978: qemuDomainSaveMemory
  let smr := qemuDomainSaveMemory o.sm domXMLlen compressed was_running bs pre
  let tr := tr ++ [Ev.saveMemoryCall smr.ret]
  if smr.ret < 0 then siEndjob o smr.ret true was_running none tr
  else
  -- lines 2984-2993: stop the domain; transient domains are removed
  let tr := tr ++ [Ev.processStop]
  if !o.persistent then
    let tr := tr ++ [Ev.endAsync o.endAsyncPos]
      ++ (if o.endAsyncPos then [Ev.removeInactive] else [])
    siEndjob o smr.ret false was_running none tr
  else
    siEndjob o smr.ret true was_running none tr

/-! ## qemudDomainSuspend (lines 1638-1718) -/

/-- Coarse VM lifecycle state, as read by `virDomainObjGetState`. -/
inductive DomState where
  | running | paused | pmsusp | shutoff
  deriving DecidableEq

/-- Asynchronous job kinds (spec section 3, JobState.asyncJob). -/
inductive AsyncJob where
  | none | migrationOut | migrationIn | save | dump | snapshot
  deriving DecidableEq

structure SuspOracle where
  found : Bool
  active0 : Bool
  beginOk : Bool
  activeAfterBegin : Bool
  asyncJob : AsyncJob
  state : DomState
  stopOk : Bool
  saveStatusOk : Bool
  endPos : Bool
  deriving DecidableEq

/-- The `cleanup:` tail shared by the simple driver operations:
`if (vm) virDomainObjUnlock(vm);`. -/
def drvCleanup (ret : Int) (vm : Bool) (err : Option ErrMsg) (tr : List Ev) : DrvRes :=
  { ret := ret, vmNull := !vm, err := err
    trace := tr ++ if vm then [.unlockVm] else [] }

/-- The `endjob:` tail of `qemudDomainSuspend` (lines 1706-1708). -/
def suspEndjob (o : SuspOracle) (ret : Int) (err : Option ErrMsg) (tr : List Ev) : DrvRes :=
  let tr := tr ++ [Ev.endJob o.endPos]
  if !o.endPos then drvCleanup ret false err tr
  else drvCleanup ret true err tr

/-- Shallow embedding of `qemudDomainSuspend` (lines 1638-1718). -/
def qemudDomainSuspend (o : SuspOracle) : DrvRes :=
  if !o.found then { ret := -1, vmNull := true, err := some .noDomain, trace := [] }
  else if !o.active0 then drvCleanup (-1) true (some .notRunning) []
  else if !o.beginOk then drvCleanup (-1) true none [Ev.beginJob false]
  else
  let tr := [Ev.beginJob true]
  if !o.activeAfterBegin then suspEndjob o (-1) (some .notRunning) tr
  -- lines 1675-1684 select only the pause reason/event detail
  else if o.state = DomState.pmsusp then suspEndjob o (-1) (some .pmsuspended) tr
  else
  let tr := tr ++ (if o.state ≠ DomState.paused then [Ev.stopCPUs o.stopOk] else [])
  if o.state ≠ DomState.paused && !o.stopOk then suspEndjob o (-1) none tr
  else if !o.saveStatusOk then suspEndjob o (-1) none tr
  else suspEndjob o 0 none tr

/-! ## qemuDomainDestroyFlags (lines 2019-2101) -/

structure DestroyOracle where
  found : Bool
  graceful : Bool
  killOk : Bool
  beginOk : Bool
  activeAfterBegin : Bool
  persistent : Bool
  endPos : Bool
  deriving DecidableEq

/-- The `endjob:` tail of `qemuDomainDestroyFlags` (lines 2089-2092):
`if (vm && qemuDomainObjEndJob(driver, vm) == 0) vm = NULL;`. -/
def destroyEndjob (o : DestroyOracle) (ret : Int) (vm : Bool)
    (err : Option ErrMsg) (tr : List Ev) : DrvRes :=
  if vm then
    let tr := tr ++ [Ev.endJob o.endPos]
    if !o.endPos then drvCleanup ret false err tr
    else drvCleanup ret true err tr
  else drvCleanup ret false err tr

/-- Shallow embedding of `qemuDomainDestroyFlags` (lines 2019-2101). -/
def qemuDomainDestroyFlags (o : DestroyOracle) : DrvRes :=
  if !o.found then { ret := -1, vmNull := true, err := some .noDomain, trace := [] }
  -- lines 2050-2058: kill the qemu process
  else if o.graceful && !o.killOk then drvCleanup (-1) true (some .killFailed) []
  else if !o.beginOk then drvCleanup (-1) true none [Ev.beginJob false]
  else
  let tr := [Ev.beginJob true]
  if !o.activeAfterBegin then destroyEndjob o (-1) true (some .notRunning) tr
  else
  -- lines 2076-2086
  let tr := tr ++ [Ev.processStop]
  if !o.persistent then
    let tr := tr ++ [Ev.endJob o.endPos]
      ++ (if o.endPos then [Ev.removeInactive] else [])
    destroyEndjob o 0 false none tr
  else destroyEndjob o 0 true none tr

/-! ## qemuDomainAbortJob (lines 10348-10401) -/

structure AbortOracle where
  found : Bool
  beginOk : Bool
  active : Bool
  asyncJob : AsyncJob
  dumpMemOnly : Bool
  cancelOk : Bool
  endPos : Bool
  deriving DecidableEq

/-- The `endjob:` tail of `qemuDomainAbortJob` (lines 10393-10395). -/
def abortEndjob (o : AbortOracle) (ret : Int) (err : Option ErrMsg) (tr : List Ev) : DrvRes :=
  let tr := tr ++ [Ev.endJob o.endPos]
  if !o.endPos then drvCleanup ret false err tr
  else drvCleanup ret true err tr

/-- Shallow embedding of `qemuDomainAbortJob` (lines 10348-10401). -/
def qemuDomainAbortJob (o : AbortOracle) : DrvRes :=
  if !o.found then { ret := -1, vmNull := true, err := some .noDomain, trace := [] }
  else if !o.beginOk then drvCleanup (-1) true none [Ev.beginJob false]
  else
  let tr := [Ev.beginJob true]
  if !o.active then abortEndjob o (-1) (some .notRunning) tr
  -- lines 10376-10385
  else if o.asyncJob = AsyncJob.none || o.dumpMemOnly then
    abortEndjob o (-1) (some .noJobActive) tr
  else if o.asyncJob = AsyncJob.migrationIn then
    abortEndjob o (-1) (some .cannotAbortIncoming) tr
  else
    -- lines 10387-10391: cooperative abort flag + migrate-cancel command
    let tr := tr ++ [Ev.abortFlag, Ev.enterMon, Ev.migrateCancel o.cancelOk, Ev.exitMon]
    abortEndjob o (if o.cancelOk then 0 else -1) none tr

/-! ## Migration with change protection: Begin3 / Confirm3
(lines 9788-9875 and 10046-10100) -/

/-- The migration-relevant part of the per-domain Job State: the active
async job, its phase, and whether a close callback is registered for
the owning connection. -/
structure MigState where
  asyncJob : AsyncJob
  phase : MigPhase
  closeCb : Bool
  deriving DecidableEq

/-- Modelled from the spec: `qemuMigrationJobStart` (qemu_migration.c,
which is not part of this tree) admits the MIGRATION_OUT async job via
`BeginAsyncJob`, which requires that no async job is currently active
("async jobs never nest") and may fail with JOB_BUSY after the waiting
discipline; on success it records the async job with no phase yet. -/
def qemuMigrationJobStart (s : MigState) (k : AsyncJob) (admissionOk : Bool) :
    Option MigState :=
  if admissionOk && s.asyncJob = AsyncJob.none then
    some { s with asyncJob := k, phase := MigPhase.none }
  else none

/-- Modelled from the spec: `qemuMigrationJobIsActive` (qemu_migration.c,
not part of this tree) checks that the async job of the given kind is
still active on the domain. -/
def qemuMigrationJobIsActive (s : MigState) (k : AsyncJob) : Bool :=
  s.asyncJob = k

/-- Modelled from the spec: `qemuMigrationJobStartPhase` /
`AdvanceAsyncPhase` (qemu_migration.c, not part of this tree) is a pure
metadata update of the async phase marker. -/
def qemuMigrationJobStartPhase (s : MigState) (p : MigPhase) : MigState :=
  { s with phase := p }

/-- Modelled from the spec: `qemuMigrationJobFinish` (qemu_migration.c,
not part of this tree) ends the async job via `EndAsyncJob`, clearing
the async job and phase fields; its return signals whether the domain
object is still referenced. -/
def qemuMigrationJobFinish (s : MigState) : MigState :=
  { s with asyncJob := AsyncJob.none, phase := MigPhase.none }

/-- Modelled from the spec: the Close-Callback Registry `Set` operation
(registers a cleanup for the owning connection). -/
def qemuDriverCloseCallbackSet (s : MigState) : MigState :=
  { s with closeCb := true }

/-- Modelled from the spec: the Close-Callback Registry `Unset`
operation. -/
def qemuDriverCloseCallbackUnset (s : MigState) : MigState :=
  { s with closeCb := false }

/-- Result of `qemuDomainMigrateBegin3`: whether a non-NULL XML was
returned, the final job state, whether the local `vm` pointer is NULL
on return, and the event trace. -/
structure MigRes where
  xmlOk : Bool
  ret : Int
  state : MigState
  vmNull : Bool
  trace : List Ev
  deriving DecidableEq

structure Begin3Oracle where
  found : Bool
  changeProtection : Bool
  jobStartOk : Bool
  beginOk : Bool
  activeVm : Bool
  ejectOk : Bool
  migBeginOk : Bool
  cbSetOk : Bool
  contPos : Bool
  finishPos : Bool
  endPos : Bool
  deriving DecidableEq

/-- The `endjob:` tail of `qemuDomainMigrateBegin3` (lines 9866-9875):
with change protection the async job is finished, otherwise the sync
job is ended. -/
def begin3Endjob (o : Begin3Oracle) (xmlOk : Bool) (s : MigState)
    (tr : List Ev) : MigRes :=
  if o.changeProtection then
    let s := qemuMigrationJobFinish s
    let tr := tr ++ [Ev.jobFinishEv o.finishPos]
    { xmlOk := xmlOk, ret := 0, state := s, vmNull := !o.finishPos
      trace := tr ++ if o.finishPos then [Ev.unlockVm] else [] }
  else
    let tr := tr ++ [Ev.endJob o.endPos]
    { xmlOk := xmlOk, ret := 0, state := s, vmNull := !o.endPos
      trace := tr ++ if o.endPos then [Ev.unlockVm] else [] }

/-- Shallow embedding of `qemuDomainMigrateBegin3` (lines 9788-9875),
with the primitives of qemu_migration.c modelled from the spec. -/
def qemuDomainMigrateBegin3 (o : Begin3Oracle) (s : MigState) : MigRes :=
  if !o.found then
    { xmlOk := false, ret := -1, state := s, vmNull := true, trace := [] }
  else if o.changeProtection then
    -- lines 9812-9815
    match qemuMigrationJobStart s AsyncJob.migrationOut o.jobStartOk with
    | Option.none =>
        { xmlOk := false, ret := -1, state := s, vmNull := false, trace := [Ev.unlockVm] }
    | Option.some s1 =>
        let tr := [Ev.jobStartEv]
        if !o.activeVm then begin3Endjob o false s1 tr
        else if !o.ejectOk then begin3Endjob o false s1 tr
        -- line 9835: qemuMigrationBegin formats the XML and (spec:
        -- phase sequence) records the BEGIN3 phase
        else if !o.migBeginOk then begin3Endjob o false s1 tr
        else
        let s2 := qemuMigrationJobStartPhase s1 MigPhase.begin3
        let tr := tr ++ [Ev.startPhase MigPhase.begin3]
        -- lines 9840-9855
        if !o.cbSetOk then begin3Endjob o true s2 tr
        else
        let s3 := qemuDriverCloseCallbackSet s2
        let tr := tr ++ [Ev.closeCbSet, Ev.jobContinueEv o.contPos]
        if !o.contPos then
          { xmlOk := false, ret := -1, state := s3, vmNull := true, trace := tr }
        else
          { xmlOk := true, ret := 0, state := s3, vmNull := false
            trace := tr ++ [Ev.unlockVm] }
  else
    -- lines 9816-9820 and 9856-9858: plain MODIFY job
    if !o.beginOk then
      { xmlOk := false, ret := -1, state := s, vmNull := false, trace := [Ev.unlockVm] }
    else
    let tr := [Ev.beginJob true]
    if !o.activeVm then begin3Endjob o false s tr
    else if !o.ejectOk then begin3Endjob o false s tr
    else if !o.migBeginOk then begin3Endjob o false s tr
    else begin3Endjob o true s tr

structure Confirm3Oracle where
  found : Bool
  cancelled : Bool
  confirmOk : Bool
  finishPos : Bool
  activeAfter : Bool
  persistent : Bool
  undefineSource : Bool
  deriving DecidableEq

/-- Shallow embedding of `qemuDomainMigrateConfirm3` (lines 10046-10100). -/
def qemuDomainMigrateConfirm3 (o : Confirm3Oracle) (s : MigState) : MigRes :=
  if !o.found then
    { xmlOk := false, ret := -1, state := s, vmNull := true, trace := [] }
  -- line 10070: the MIGRATION_OUT async job must still be active
  else if !(qemuMigrationJobIsActive s AsyncJob.migrationOut) then
    { xmlOk := false, ret := -1, state := s, vmNull := false, trace := [Ev.unlockVm] }
  else
  -- lines 10073-10079
  let phase := if o.cancelled then MigPhase.confirm3_cancelled else MigPhase.confirm3
  let s := qemuMigrationJobStartPhase s phase
  let s := qemuDriverCloseCallbackUnset s
  let tr := [Ev.startPhase phase, Ev.closeCbUnset]
  -- line 10081: qemuMigrationConfirm
  let ret : Int := if o.confirmOk then 0 else -1
  -- lines 10085-10093
  let s := qemuMigrationJobFinish s
  let tr := tr ++ [Ev.jobFinishEv o.finishPos]
  if !o.finishPos then
    { xmlOk := false, ret := ret, state := s, vmNull := true, trace := tr }
  else if !o.activeAfter && (!o.persistent || o.undefineSource) then
    { xmlOk := false, ret := ret, state := s, vmNull := true
      trace := tr ++ [Ev.removeInactive] }
  else
    { xmlOk := false, ret := ret, state := s, vmNull := false
      trace := tr ++ [Ev.unlockVm] }

/-! ## qemuDomainGetJobInfo (lines 10297-10345) -/

/-- `virDomainJobInfo` as the driver touches it: the job type, the
elapsed-time field, and one abstract field standing for all the other
counters copied verbatim from the stored info. -/
structure JobInfo where
  jtype : Nat
  timeElapsed : Int
  otherData : Nat
  deriving DecidableEq

def VIR_DOMAIN_JOB_NONE : Nat := 0

structure GJIOracle where
  found : Bool
  active : Bool
  asyncJob : AsyncJob
  dumpMemOnly : Bool
  timeOk : Bool
  stored : JobInfo
  jobStart : Nat
  now : Nat
  deriving DecidableEq

structure GJIRes where
  ret : Int
  info : Option JobInfo
  err : Option ErrMsg
  deriving DecidableEq

/-- Shallow embedding of `qemuDomainGetJobInfo` (lines 10297-10345). -/
def qemuDomainGetJobInfo (o : GJIOracle) : GJIRes :=
  if !o.found then { ret := -1, info := Option.none, err := some ErrMsg.noDomain }
  else if o.active then
    -- line 10318: asyncJob set and not a memory-only dump
    if o.asyncJob ≠ AsyncJob.none && !o.dumpMemOnly then
      if !o.timeOk then { ret := -1, info := some o.stored, err := Option.none }
      else
        { ret := 0
          info := some { o.stored with timeElapsed := (o.now : Int) - (o.jobStart : Int) }
          err := Option.none }
    else
      -- lines 10330-10331: zeroed info with type NONE
      { ret := 0, info := some ⟨VIR_DOMAIN_JOB_NONE, 0, 0⟩, err := Option.none }
  else { ret := -1, info := Option.none, err := some ErrMsg.notRunning }

/-! ## qemuDomainGetControlInfo (lines 2509-2567) -/

/-- `virDomainControlState` values used by the driver. -/
inductive CtlState where
  | ok | job | occupied | error
  deriving DecidableEq

structure CtlOracle where
  found : Bool
  active : Bool
  monError : Bool
  jobActive : Bool
  monStart : Nat
  jobStart : Nat
  now : Nat
  timeOk : Bool
  deriving DecidableEq

structure CtlRes where
  ret : Int
  state : Option CtlState
  stateTime : Int
  err : Option ErrMsg
  deriving DecidableEq

/-- Shallow embedding of `qemuDomainGetControlInfo` (lines 2509-2567).
`monStart = 0` means the monitor has not been entered (`priv->monStart`
is a millisecond timestamp, zero while no monitor call is in flight). -/
def qemuDomainGetControlInfo (o : CtlOracle) : CtlRes :=
  if !o.found then
    { ret := -1, state := Option.none, stateTime := 0, err := some ErrMsg.noDomain }
  else if !o.active then
    { ret := -1, state := Option.none, stateTime := 0, err := some ErrMsg.notRunning }
  -- line 2541: memset(info, 0, ...) then fill in
  else if o.monError then
    { ret := 0, state := some CtlState.error, stateTime := 0, err := Option.none }
  else if o.jobActive then
    if o.monStart = 0 then
      if !o.timeOk then
        { ret := -1, state := some CtlState.job, stateTime := 0, err := Option.none }
      else
        { ret := 0, state := some CtlState.job
          stateTime := (o.now : Int) - (o.jobStart : Int), err := Option.none }
    else
      if !o.timeOk then
        { ret := -1, state := some CtlState.occupied, stateTime := 0, err := Option.none }
      else
        { ret := 0, state := some CtlState.occupied
          stateTime := (o.now : Int) - (o.monStart : Int), err := Option.none }
  else { ret := 0, state := some CtlState.ok, stateTime := 0, err := Option.none }

/-! ## Job masks and qemuDomainSnapshotCreateActiveExternal
(lines 11279-11429) -/

/-- Modelled from the spec: the synchronous job kinds of the Job State
(`enum qemuDomainJob`; qemu_domain.h is not part of this tree).  The
spec lists {NONE, QUERY, MODIFY, ABORT, MIGRATION_OP, SUSPEND, DESTROY}. -/
inductive SyncJob where
  | none | query | modify | abort | migrationOp | suspend | destroy
  deriving DecidableEq

/-- Modelled from the spec: position of a synchronous job kind in the
job enumeration, used by `JOB_MASK(job) = 1 << (job - 1)`. -/
def SyncJob.idx : SyncJob → Nat
  | .none => 0
  | .query => 1
  | .modify => 2
  | .abort => 3
  | .migrationOp => 4
  | .suspend => 5
  | .destroy => 6

/-- Modelled from the spec: `JOB_MASK` (qemu_domain.h, not part of this
tree): the bit of a synchronous job kind in the async job's allow-mask. -/
def JOB_MASK (j : SyncJob) : Nat := 2 ^ (j.idx - 1)

/-- Modelled from the spec: `DEFAULT_JOB_MASK` (qemu_domain.h, not part
of this tree): "default mask permits QUERY + ABORT". -/
def DEFAULT_JOB_MASK : Nat := JOB_MASK SyncJob.query ||| JOB_MASK SyncJob.abort

/-- The widened mask set around the memory-save step of an external
snapshot (lines 11345-11347 of the driver). -/
def SNAPSHOT_MEMORY_JOB_MASK : Nat :=
  DEFAULT_JOB_MASK ||| JOB_MASK SyncJob.suspend ||| JOB_MASK SyncJob.migrationOp

structure SnapOracle where
  beginAsyncOk : Bool
  quiesce : Bool
  freezeOk : Bool
  running : Bool
  memory : Bool
  live : Bool
  atomic : Bool
  transaction : Bool
  stopOk : Bool
  activeAfterStop : Bool
  xmlOk : Bool
  saveMemOk : Bool
  diskSnapOk : Bool
  halt : Bool
  endAsyncPos : Bool
  resumeOk : Bool
  thawOk : Bool
  activeAtEnd : Bool
  deriving DecidableEq

/-- Result of `qemuDomainSnapshotCreateActiveExternal`: return value and
event trace; `saveMem`/`diskSnap` events record the job mask in force
when the corresponding step ran. -/
structure SnapRes where
  ret : Int
  trace : List Ev
  deriving DecidableEq

/-- The `endjob:` tail of `qemuDomainSnapshotCreateActiveExternal`
(lines 11393-11423), entered with the mask currently in force. -/
def snapEndjob (o : SnapOracle) (ret : Int) (vm resume : Bool) (thaw : Int)
    (tr : List Ev) : SnapRes :=
  -- lines 11394-11410: resume CPUs if we paused them
  if resume && vm && o.activeAtEnd && !o.resumeOk then
    { ret := -1, trace := tr ++ [Ev.startCPUs false] }
  else
  let tr := tr ++
    (if resume && vm && o.activeAtEnd then [Ev.startCPUs true] else [])
  -- lines 11411-11416: thaw if we froze
  let ret := if vm && thaw ≠ 0 && !o.thawOk && thaw > 0 then -1 else ret
  -- lines 11417-11423
  if vm then
    let tr := tr ++ [Ev.endAsync o.endAsyncPos]
    if !o.endAsyncPos then { ret := -1, trace := tr }
    else { ret := ret, trace := tr }
  else { ret := ret, trace := tr }

/-- Shallow embedding of `qemuDomainSnapshotCreateActiveExternal`
(lines 11279-11429), threading the async-job mask: BeginAsyncJob leaves
the default mask in force (spec), the memory-save step widens it to
exactly default + SUSPEND + MIGRATION_OP and restores it right after. -/
def qemuDomainSnapshotCreateActiveExternal (o : SnapOracle) : SnapRes :=
  if !o.beginAsyncOk then { ret := -1, trace := [Ev.beginAsync false] }
  else
  let tr := [Ev.beginAsync true]
  let mask := DEFAULT_JOB_MASK
  -- lines 11303-11311: quiesce handling; thaw = 1 on success, -1 on failure
  if o.quiesce && !o.freezeOk then snapEndjob o (-1) true false (-1) tr
  else
  let thaw : Int := if o.quiesce then 1 else 0
  -- lines 11313-11340: pause the guest if needed
  let resume := o.running
  let needPause := o.running &&
    ((o.memory && !o.live) || (!o.memory && o.atomic && !o.transaction))
  let tr := tr ++ (if needPause then [Ev.stopCPUs o.stopOk] else [])
  if needPause && !o.stopOk then snapEndjob o (-1) true resume thaw tr
  else if needPause && !o.activeAfterStop then snapEndjob o (-1) true resume thaw tr
  else
  -- lines 11342-11360: the memory snapshot, under the widened mask
  if o.memory then
    let mask := SNAPSHOT_MEMORY_JOB_MASK
    let tr := tr ++ [Ev.setMask mask]
    if !o.xmlOk then snapEndjob o (-1) true resume thaw tr
    else
    let tr := tr ++ [Ev.saveMem mask o.saveMemOk]
    if !o.saveMemOk then snapEndjob o (-1) true resume thaw tr
    else
    let mask := DEFAULT_JOB_MASK
    let tr := tr ++ [Ev.setMask mask]
    -- lines 11369-11391: disk snapshots, then optional halt
    let tr := tr ++ [Ev.diskSnap mask o.diskSnapOk]
    if !o.diskSnapOk then snapEndjob o (-1) true resume thaw tr
    else if o.halt then
      let tr := tr ++ [Ev.processStop, Ev.endAsync o.endAsyncPos]
      snapEndjob o 0 false false 0 tr
    else snapEndjob o 0 true resume thaw tr
  else
    let tr := tr ++ [Ev.diskSnap mask o.diskSnapOk]
    if !o.diskSnapOk then snapEndjob o (-1) true resume thaw tr
    else if o.halt then
      let tr := tr ++ [Ev.processStop, Ev.endAsync o.endAsyncPos]
      snapEndjob o 0 false false 0 tr
    else snapEndjob o 0 true resume thaw tr

/-! ## Derived definitions used by the theorems -/

/-- The header as first written by `qemuDomainSaveMemory` (lines
2794-2822): PARTIAL magic, version, xml length, was_running and
compression fields. -/
def partialHeaderOf (domXMLlen compressed : Nat) (was_running : Bool) : SaveHeader :=
  { magic := QEMUD_SAVE_PARTIAL_MAGIC
    version := QEMUD_SAVE_VERSION
    xml_len := domXMLlen + 1
    was_running := if was_running then 1 else 0
    compressed := compressed }

/-- The header as rewritten by the completion step (line 2870). -/
def completeHeaderOf (domXMLlen compressed : Nat) (was_running : Bool) : SaveHeader :=
  { partialHeaderOf domXMLlen compressed was_running with magic := QEMUD_SAVE_MAGIC }

/-- The file state after the XML blob is in place. -/
def midFileOf (n c : Nat) (b : Bool) (bs : Nat) (mem : Bool) : Option FileModel :=
  some ⟨some (partialHeaderOf n c b), some (n + 1 + smPad (n + 1) bs), mem⟩

/-- The completed file state. -/
def doneFileOf (n c : Nat) (b : Bool) (bs : Nat) : Option FileModel :=
  some ⟨some (completeHeaderOf n c b), some (n + 1 + smPad (n + 1) bs), true⟩

/-- A header was actually obtained from the file: the open and the
header read succeeded (and the bypass-cache setup, when requested). -/
def headerReadable (o : ImgOracle) : Prop :=
  o.openOk = true ∧ o.readHeaderOk = true ∧
    (o.bypassCache = true → (o.directFlagOk = true ∧ o.wrapperNewOk = true))

/-- The failing input for the SAVE-admission claim: a running domain on
which admission of the SAVE async job fails (JOB_BUSY / timeout) while
every other step would succeed. -/
def siAdmissionFailOracle : SIOracle :=
  { autoDestroy := false, hasDiskMirror := false, beginAsyncOk := false,
    stateRunning := true, stopCPUsOk := true, activeAfterStop := true,
    flagRunning := false, flagPaused := false, xmlinGiven := false,
    parseOk := true, abiOk := true, formatOk := true, persistent := true,
    endAsyncPos := true, activeAtEnd := true, startCPUsOk := true,
    sm := ⟨true, false, true, true, true, true, true, true, true, true,
           true, true, true⟩ }

/-- A zero return from EndJob/EndAsyncJob: the domain object may have
been freed. -/
def releaseZero : Ev → Bool
  | .endJob false => true
  | .endAsync false => true
  | _ => false

/-- Events that dereference the domain object. -/
def touchesVm : Ev → Bool
  | .unlockVm => true
  | .removeInactive => true
  | .stopCPUs _ => true
  | .startCPUs _ => true
  | .processStop => true
  | .processStart _ => true
  | .enterMon => true
  | .exitMon => true
  | .migrateCancel _ => true
  | .abortFlag => true
  | .memsetJobInfo => true
  | .setJobInfoUnbounded => true
  | .saveMemoryCall _ => true
  | .setMask _ => true
  | .saveMem _ _ => true
  | .diskSnap _ _ => true
  | _ => false

/-- After any zero-return of EndJob/EndAsyncJob, no later event in the
trace may touch the domain object. -/
def noVmUseAfterRelease : List Ev → Bool
  | [] => true
  | e :: rest =>
      if releaseZero e then rest.all (fun x => !touchesVm x)
      else noVmUseAfterRelease rest

/-- Events that the `endjob:` tail of the snapshot function may append
to the trace. -/
def snapTailEv : Ev → Bool
  | .startCPUs _ => true
  | .endAsync _ => true
  | _ => false

/-- The events the snapshot `endjob:` tail appends. -/
def snapTail (o : SnapOracle) (vm resume : Bool) : List Ev :=
  if resume && vm && o.activeAtEnd && !o.resumeOk then [Ev.startCPUs false]
  else (if resume && vm && o.activeAtEnd then [Ev.startCPUs true] else []) ++
    (if vm then [Ev.endAsync o.endAsyncPos] else [])

/-- `thaw` value in force after the quiesce step succeeded. -/
def snapThaw (o : SnapOracle) : Int := if o.quiesce then 1 else 0

/-- The trace prefix common to all snapshot paths that got past the
pause step: the async job admission and the optional CPU stop. -/
def snapPre (o : SnapOracle) : List Ev :=
  [Ev.beginAsync true] ++
    (if o.running && ((o.memory && !o.live) || (!o.memory && o.atomic && !o.transaction))
     then [Ev.stopCPUs o.stopOk] else [])

/-- Events that may occur in `snapPre`. -/
def snapPreEv : Ev → Bool
  | .beginAsync _ => true
  | .stopCPUs _ => true
  | _ => false

/-! ## Theorems -/

/-- Every run of `qemuDomainSaveMemory` exits through one of the
explicit cleanup states below (in program order). -/
theorem sm_classify (o : SMOracle) (n c : Nat) (b : Bool) (bs : Nat)
    (pre : Option FileModel) :
    qemuDomainSaveMemory o n c b bs pre = smCleanup (-1) false pre [] Option.none ∨
    qemuDomainSaveMemory o n c b bs pre = smCleanup (-1) true pre [] Option.none ∨
    qemuDomainSaveMemory o n c b bs pre =
      smCleanup (-1) true (some ⟨Option.none, Option.none, false⟩) [] Option.none ∨
    qemuDomainSaveMemory o n c b bs pre =
      smCleanup (-1) true (some ⟨some (partialHeaderOf n c b), Option.none, false⟩)
        [partialHeaderOf n c b] Option.none ∨
    qemuDomainSaveMemory o n c b bs pre =
      smCleanup (-1) true (midFileOf n c b bs false) [partialHeaderOf n c b] Option.none ∨
    (o.migrateOk = true ∧
      qemuDomainSaveMemory o n c b bs pre =
        smCleanup (-1) true (midFileOf n c b bs true) [partialHeaderOf n c b]
          (midFileOf n c b bs true)) ∨
    (o.migrateOk = true ∧
      qemuDomainSaveMemory o n c b bs pre =
        smCleanup (-1) true (doneFileOf n c b bs)
          [partialHeaderOf n c b, completeHeaderOf n c b] (midFileOf n c b bs true)) ∨
    (o.migrateOk = true ∧
      qemuDomainSaveMemory o n c b bs pre =
        smCleanup 0 true (doneFileOf n c b bs)
          [partialHeaderOf n c b, completeHeaderOf n c b] (midFileOf n c b bs true)) := by
  by_cases h1 : o.allocOk
  case neg => exact Or.inl (by simp [qemuDomainSaveMemory, h1])
  by_cases h2 : o.bypassCache && !o.directFlagOk
  case pos => exact Or.inl (by simp [qemuDomainSaveMemory, h1, h2])
  by_cases h3 : o.openOk
  case neg =>
    exact Or.inr (Or.inl (by simp [qemuDomainSaveMemory, h1, h2, h3]))
  by_cases h4 : o.wrapperNewOk
  case neg =>
    exact Or.inr (Or.inr (Or.inl (by simp [qemuDomainSaveMemory, h1, h2, h3, h4])))
  by_cases h5 : o.writeHeaderOk
  case neg =>
    exact Or.inr (Or.inr (Or.inl (by simp [qemuDomainSaveMemory, h1, h2, h3, h4, h5])))
  by_cases h6 : o.writeXmlOk
  case neg =>
    refine Or.inr (Or.inr (Or.inr (Or.inl ?_)))
    simp [qemuDomainSaveMemory, partialHeaderOf, h1, h2, h3, h4, h5, h6]
  by_cases h7 : o.migrateOk
  case neg =>
    refine Or.inr (Or.inr (Or.inr (Or.inr (Or.inl ?_))))
    simp [qemuDomainSaveMemory, partialHeaderOf, midFileOf, h1, h2, h3, h4, h5, h6, h7]
  by_cases h8 : o.closeOk && o.wrapperCloseOk && o.reopenOk && o.rewriteOk
  case neg =>
    refine Or.inr (Or.inr (Or.inr (Or.inr (Or.inr (Or.inl ⟨h7, ?_⟩)))))
    simp only [Bool.and_eq_true, not_and] at h8
    by_cases hc1 : o.closeOk
    · by_cases hc2 : o.wrapperCloseOk
      · by_cases hc3 : o.reopenOk
        · have hc4 : o.rewriteOk = false := by
            rcases Bool.eq_false_or_eq_true o.rewriteOk with hr | hr
            · exact absurd hr (h8 ⟨⟨hc1, hc2⟩, hc3⟩)
            · exact hr
          simp [qemuDomainSaveMemory, partialHeaderOf, midFileOf,
            h1, h2, h3, h4, h5, h6, h7, hc1, hc2, hc3, hc4]
        · simp [qemuDomainSaveMemory, partialHeaderOf, midFileOf,
            h1, h2, h3, h4, h5, h6, h7, hc1, hc2, hc3]
      · simp [qemuDomainSaveMemory, partialHeaderOf, midFileOf,
          h1, h2, h3, h4, h5, h6, h7, hc1, hc2]
    · simp [qemuDomainSaveMemory, partialHeaderOf, midFileOf,
        h1, h2, h3, h4, h5, h6, h7, hc1]
  by_cases h9 : o.close2Ok
  case neg =>
    refine Or.inr (Or.inr (Or.inr (Or.inr (Or.inr (Or.inr (Or.inl ⟨h7, ?_⟩))))))
    simp only [Bool.and_eq_true] at h8
    simp [qemuDomainSaveMemory, partialHeaderOf, completeHeaderOf, midFileOf, doneFileOf,
      h1, h2, h3, h4, h5, h6, h7, h8.1.1.1, h8.1.1.2, h8.1.2, h8.2, h9]
  refine Or.inr (Or.inr (Or.inr (Or.inr (Or.inr (Or.inr (Or.inr ⟨h7, ?_⟩))))))
  simp only [Bool.and_eq_true] at h8
  simp [qemuDomainSaveMemory, partialHeaderOf, completeHeaderOf, midFileOf, doneFileOf,
    h1, h2, h3, h4, h5, h6, h7, h8.1.1.1, h8.1.1.2, h8.1.2, h8.2, h9]

/-- Claim C2: on every save-to-file of domain memory, the on-disk header
is first written with the 'partial' magic (same length as the
'complete' magic, different bytes) together with the version, XML
length, was_running and compression fields; the magic is rewritten to
the 'complete' value only after the memory migration to the file fully
succeeded; and a run that failed at any earlier point leaves the file
either unlinked (it was created with O_CREAT) or entirely untouched. -/
theorem save_memory_partial_then_complete :
    ∀ (o : SMOracle) (n c : Nat) (b : Bool) (bs : Nat) (pre : Option FileModel),
    (QEMUD_SAVE_MAGIC.length = QEMUD_SAVE_PARTIAL_MAGIC.length ∧
      QEMUD_SAVE_MAGIC ≠ QEMUD_SAVE_PARTIAL_MAGIC) ∧
    (∀ h, (qemuDomainSaveMemory o n c b bs pre).writes.head? = some h →
      h = partialHeaderOf n c b) ∧
    (∀ h ∈ (qemuDomainSaveMemory o n c b bs pre).writes,
      h.magic = QEMUD_SAVE_MAGIC →
      o.migrateOk = true ∧
        (qemuDomainSaveMemory o n c b bs pre).writes =
          [partialHeaderOf n c b, completeHeaderOf n c b]) ∧
    ((qemuDomainSaveMemory o n c b bs pre).ret = 0 →
      (qemuDomainSaveMemory o n c b bs pre).file = doneFileOf n c b bs) ∧
    ((qemuDomainSaveMemory o n c b bs pre).ret ≠ 0 →
      (qemuDomainSaveMemory o n c b bs pre).file = Option.none ∨
        (qemuDomainSaveMemory o n c b bs pre).file = pre) ∧
    ((qemuDomainSaveMemory o n c b bs pre).ret ≠ 0 →
      (qemuDomainSaveMemory o n c b bs pre).writes ≠ [] →
      (qemuDomainSaveMemory o n c b bs pre).file = Option.none) := by
  intro o n c b bs pre
  refine ⟨⟨by decide, by decide⟩, ?_⟩
  have hmag : (partialHeaderOf n c b).magic ≠ QEMUD_SAVE_MAGIC := by
    simp only [partialHeaderOf]
    decide
  rcases sm_classify o n c b bs pre with h | h | h | h | h | ⟨hm, h⟩ | ⟨hm, h⟩ | ⟨hm, h⟩ <;>
    rw [h] <;>
    simp_all [smCleanup, completeHeaderOf, doneFileOf, midFileOf]

/-- Witness for the hypotheses of `save_memory_partial_then_complete`,
at the all-successful oracle. -/
theorem save_memory_partial_then_complete_witness :
    (qemuDomainSaveMemory ⟨true, false, true, true, true, true, true, true,
        true, true, true, true, true⟩ 10 0 true 512 Option.none).ret = 0 ∧
    (qemuDomainSaveMemory ⟨true, false, true, true, true, true, true, true,
        true, true, true, true, true⟩ 10 0 true 512 Option.none).file =
      doneFileOf 10 0 true 512 := by
  refine ⟨by decide, ?_⟩
  exact (save_memory_partial_then_complete
    ⟨true, false, true, true, true, true, true, true, true, true, true, true, true⟩
    10 0 true 512 Option.none).2.2.2.1 (by decide)

/-- Claim C10: when a save completes successfully, the header rewritten
at the start of the file differs from the initially written header only
in the magic field, and the completion step leaves the padded XML blob
and the appended memory image unchanged. -/
theorem save_completion_frame :
    ∀ (o : SMOracle) (n c : Nat) (b : Bool) (bs : Nat) (pre : Option FileModel),
    (∀ h1 h2, (qemuDomainSaveMemory o n c b bs pre).writes = [h1, h2] →
      h1.magic = QEMUD_SAVE_PARTIAL_MAGIC ∧
      h2 = { h1 with magic := QEMUD_SAVE_MAGIC }) ∧
    ((qemuDomainSaveMemory o n c b bs pre).ret = 0 →
      ∃ f h1, (qemuDomainSaveMemory o n c b bs pre).fileAtMigrated = some f ∧
        f.hdr = some h1 ∧
        (qemuDomainSaveMemory o n c b bs pre).file =
          some { f with hdr := some { h1 with magic := QEMUD_SAVE_MAGIC } }) := by
  intro o n c b bs pre
  rcases sm_classify o n c b bs pre with h | h | h | h | h | ⟨hm, h⟩ | ⟨hm, h⟩ | ⟨hm, h⟩ <;>
    rw [h] <;>
    simp_all [smCleanup, completeHeaderOf, doneFileOf, midFileOf, partialHeaderOf]

/-- Witness for the hypotheses of `save_completion_frame`: the two
header writes of a successful save differ only in the magic. -/
theorem save_completion_frame_witness :
    (partialHeaderOf 10 0 true).magic = QEMUD_SAVE_PARTIAL_MAGIC ∧
    { partialHeaderOf 10 0 true with magic := QEMUD_SAVE_MAGIC } =
      { partialHeaderOf 10 0 true with magic := QEMUD_SAVE_MAGIC } := by
  refine (save_completion_frame
    ⟨true, false, true, true, true, true, true, true, true, true, true, true, true⟩
    10 0 true 512 Option.none).1 (partialHeaderOf 10 0 true)
    { partialHeaderOf 10 0 true with magic := QEMUD_SAVE_MAGIC } (by decide)

/-- Helper: with the PARTIAL magic, `unlink_corrupt` open closes and
unlinks the file and returns the distinguished -3 code. -/
theorem imgOpen_partial_unlinked (o : ImgOracle) (hdr : SaveHeader)
    (xg : Bool) (st : Int) (edit : Bool)
    (hmag : hdr.magic = QEMUD_SAVE_PARTIAL_MAGIC) (hr : headerReadable o)
    (hc : o.closeOk = true) (hu : o.unlinkOk = true) :
    qemuDomainSaveImageOpen o hdr xg st edit true = ImgOpenRes.unlinked := by
  obtain ⟨h1, h2, h3⟩ := hr
  have hne : QEMUD_SAVE_PARTIAL_MAGIC ≠ QEMUD_SAVE_MAGIC := by decide
  by_cases hb : o.bypassCache
  · obtain ⟨hd, hw⟩ := h3 hb
    simp [qemuDomainSaveImageOpen, hmag, hne, h1, h2, hb, hd, hw, hc, hu]
  · simp [qemuDomainSaveImageOpen, hmag, hne, h1, h2, hb, hc, hu]

/-- Claim C3: a save image whose header magic is the 'partial' magic is
never used to start a VM.  The open never succeeds on it; without
`unlink_corrupt` it fails with the 'save image is incomplete' error;
with `unlink_corrupt` (the managed-save auto-restore path) it closes
and unlinks the file and returns the distinguished code, which
`qemuDomainObjRestore` maps to 1, upon which `qemuDomainObjStart` warns
about the incomplete state and boots the domain from scratch. -/
theorem partial_image_never_starts_vm :
    ∀ (o : ImgOracle) (hdr : SaveHeader) (xg : Bool) (st : Int)
      (edit uc nm sv um ps : Bool),
    hdr.magic = QEMUD_SAVE_PARTIAL_MAGIC →
    (qemuDomainSaveImageOpen o hdr xg st edit uc).isOk = false ∧
    (headerReadable o → uc = false →
      qemuDomainSaveImageOpen o hdr xg st edit uc =
        ImgOpenRes.err ErrMsg.saveImageIncomplete) ∧
    (headerReadable o → o.closeOk = true → o.unlinkOk = true →
      qemuDomainSaveImageOpen o hdr xg st edit true = ImgOpenRes.unlinked) ∧
    (headerReadable o → o.closeOk = true → o.unlinkOk = true →
      qemuDomainObjRestore o hdr nm sv = 1) ∧
    (headerReadable o → o.closeOk = true → o.unlinkOk = true →
      (qemuDomainObjStart o hdr nm sv true false um ps).trace =
        [Ev.warnIncompleteManagedSave, Ev.processStart ps] ∧
      (qemuDomainObjStart o hdr nm sv true false um ps).ret =
        if ps then 0 else -1) := by
  intro o hdr xg st edit uc nm sv um ps hmag
  have hne : QEMUD_SAVE_PARTIAL_MAGIC ≠ QEMUD_SAVE_MAGIC := by decide
  refine ⟨?_, ?_, ?_, ?_, ?_⟩
  · simp only [qemuDomainSaveImageOpen, hmag, hne, ne_eq, not_false_iff, if_true,
      Bool.not_eq_true', Bool.and_eq_true, decide_eq_true_eq]
    split_ifs <;> rfl
  · rintro ⟨h1, h2, h3⟩ huc
    by_cases hb : o.bypassCache
    · obtain ⟨hd, hw⟩ := h3 hb
      simp [qemuDomainSaveImageOpen, hmag, hne, h1, h2, hb, hd, hw, huc]
    · simp [qemuDomainSaveImageOpen, hmag, hne, h1, h2, hb, huc]
  · intro hr hc hu
    exact imgOpen_partial_unlinked o hdr xg st edit hmag hr hc hu
  · intro hr hc hu
    simp [qemuDomainObjRestore,
      imgOpen_partial_unlinked o hdr false (-1) false hmag hr hc hu]
  · intro hr hc hu
    have h4 : qemuDomainObjRestore o hdr nm sv = 1 := by
      simp [qemuDomainObjRestore,
        imgOpen_partial_unlinked o hdr false (-1) false hmag hr hc hu]
    constructor <;> simp [qemuDomainObjStart, h4, startBoot]

/-- Witness for the hypotheses of `partial_image_never_starts_vm`:
a concrete partial-magic header on the managed-save restore path. -/
theorem partial_image_never_starts_vm_witness :
    qemuDomainObjRestore
      ⟨false, true, true, true, true, true, true, true, true, true, true,
        true, true, true⟩
      ⟨QEMUD_SAVE_PARTIAL_MAGIC, 2, 100, 1, 0⟩ true true = 1 := by
  exact (partial_image_never_starts_vm
    ⟨false, true, true, true, true, true, true, true, true, true, true,
      true, true, true⟩
    ⟨QEMUD_SAVE_PARTIAL_MAGIC, 2, 100, 1, 0⟩ false (-1) false false true true
    true true rfl).2.2.2.1 ⟨rfl, rfl, by simp⟩ rfl rfl

/-- Claim C1 (code bug): the claim says an admission failure of the SAVE
async job makes `qemuDomainSaveInternal` return failure without pausing
the guest CPUs, issuing monitor commands, or ending a job it never
began.  The source (lines 2926-2929) lacks the `goto` after the
admission check — the `if` governs only the `memset` — so on the
failing input the function instead proceeds: it zeroes the job info,
pauses the CPUs, runs the whole save and ends an async job it never
began, returning success. -/
theorem save_admission_failure_not_propagated :
    qemuDomainSaveInternal siAdmissionFailOracle 10 0 512 Option.none =
      { ret := 0, vmNull := false, err := Option.none
        trace := [Ev.beginAsync false, Ev.memsetJobInfo, Ev.setJobInfoUnbounded,
                  Ev.stopCPUs true, Ev.saveMemoryCall 0, Ev.processStop,
                  Ev.endAsync true, Ev.unlockVm] } ∧
    Ev.stopCPUs true ∈ (qemuDomainSaveInternal siAdmissionFailOracle 10 0 512
      Option.none).trace ∧
    Ev.endAsync true ∈ (qemuDomainSaveInternal siAdmissionFailOracle 10 0 512
      Option.none).trace := by
  refine ⟨?_, by decide, by decide⟩
  decide

/-! ## Trace scanning for the job-release safety claim -/

theorem noVmUseAfterRelease_append (tr rest : List Ev)
    (h : tr.all (fun e => !releaseZero e) = true) :
    noVmUseAfterRelease (tr ++ rest) = noVmUseAfterRelease rest := by
  induction tr with
  | nil => rfl
  | cons e tr ih =>
      simp only [List.all_cons, Bool.and_eq_true, Bool.not_eq_true'] at h
      simp only [List.cons_append, noVmUseAfterRelease, h.1]
      exact ih h.2

/-- `drvCleanup` keeps the trace clean when the prefix contains no
zero-release event. -/
theorem drvCleanup_noUse (ret : Int) (vm : Bool) (err : Option ErrMsg)
    (tr : List Ev) (h : tr.all (fun e => !releaseZero e) = true) :
    noVmUseAfterRelease (drvCleanup ret vm err tr).trace = true ∧
    Ev.endJob false ∉ (drvCleanup ret vm err tr).trace := by
  constructor
  · simp only [drvCleanup]
    rw [noVmUseAfterRelease_append tr _ h]
    cases vm <;> simp [noVmUseAfterRelease]
  · simp only [drvCleanup, List.mem_append]
    rintro (hm | hm)
    · have := List.all_eq_true.mp h _ hm
      simp [releaseZero] at this
    · cases vm <;> simp_all

/-- `suspEndjob` satisfies the release contract when the prefix trace
contains no zero-release event: the scan succeeds, and a zero return
appears in the trace exactly when the vm pointer was cleared. -/
theorem suspEndjob_release (o : SuspOracle) (ret : Int) (err : Option ErrMsg)
    (tr : List Ev) (h : tr.all (fun e => !releaseZero e) = true) :
    noVmUseAfterRelease (suspEndjob o ret err tr).trace = true ∧
    (Ev.endJob false ∈ (suspEndjob o ret err tr).trace →
      (suspEndjob o ret err tr).vmNull = true) := by
  have hmem : Ev.endJob false ∉ tr := by
    intro hm
    have := List.all_eq_true.mp h _ hm
    simp [releaseZero] at this
  cases hp : o.endPos
  · have heq : suspEndjob o ret err tr =
        drvCleanup ret false err (tr ++ [Ev.endJob false]) := by
      simp [suspEndjob, hp]
    rw [heq]
    refine ⟨?_, fun _ => rfl⟩
    simp only [drvCleanup]
    rw [List.append_assoc, noVmUseAfterRelease_append tr _ h]
    decide
  · have heq : suspEndjob o ret err tr =
        drvCleanup ret true err (tr ++ [Ev.endJob true]) := by
      simp [suspEndjob, hp]
    rw [heq]
    constructor
    · simp only [drvCleanup]
      rw [List.append_assoc, noVmUseAfterRelease_append tr _ h]
      decide
    · intro hm
      exfalso
      simp only [drvCleanup, List.append_assoc, List.mem_append] at hm
      rcases hm with hm | hm
      · exact absurd hm hmem
      · simp at hm

/-- `abortEndjob` satisfies the release contract when the prefix trace
contains no zero-release event. -/
theorem abortEndjob_release (o : AbortOracle) (ret : Int) (err : Option ErrMsg)
    (tr : List Ev) (h : tr.all (fun e => !releaseZero e) = true) :
    noVmUseAfterRelease (abortEndjob o ret err tr).trace = true ∧
    (Ev.endJob false ∈ (abortEndjob o ret err tr).trace →
      (abortEndjob o ret err tr).vmNull = true) := by
  have hmem : Ev.endJob false ∉ tr := by
    intro hm
    have := List.all_eq_true.mp h _ hm
    simp [releaseZero] at this
  cases hp : o.endPos
  · have heq : abortEndjob o ret err tr =
        drvCleanup ret false err (tr ++ [Ev.endJob false]) := by
      simp [abortEndjob, hp]
    rw [heq]
    refine ⟨?_, fun _ => rfl⟩
    simp only [drvCleanup]
    rw [List.append_assoc, noVmUseAfterRelease_append tr _ h]
    decide
  · have heq : abortEndjob o ret err tr =
        drvCleanup ret true err (tr ++ [Ev.endJob true]) := by
      simp [abortEndjob, hp]
    rw [heq]
    constructor
    · simp only [drvCleanup]
      rw [List.append_assoc, noVmUseAfterRelease_append tr _ h]
      decide
    · intro hm
      exfalso
      simp only [drvCleanup, List.append_assoc, List.mem_append] at hm
      rcases hm with hm | hm
      · exact absurd hm hmem
      · simp at hm

/-- `destroyEndjob` with a live vm pointer satisfies the release
contract when the prefix trace contains no zero-release event. -/
theorem destroyEndjob_release (o : DestroyOracle) (ret : Int) (err : Option ErrMsg)
    (tr : List Ev) (h : tr.all (fun e => !releaseZero e) = true) :
    noVmUseAfterRelease (destroyEndjob o ret true err tr).trace = true ∧
    (Ev.endJob false ∈ (destroyEndjob o ret true err tr).trace →
      (destroyEndjob o ret true err tr).vmNull = true) := by
  have hmem : Ev.endJob false ∉ tr := by
    intro hm
    have := List.all_eq_true.mp h _ hm
    simp [releaseZero] at this
  cases hp : o.endPos
  · have heq : destroyEndjob o ret true err tr =
        drvCleanup ret false err (tr ++ [Ev.endJob false]) := by
      simp [destroyEndjob, hp]
    rw [heq]
    refine ⟨?_, fun _ => rfl⟩
    simp only [drvCleanup]
    rw [List.append_assoc, noVmUseAfterRelease_append tr _ h]
    decide
  · have heq : destroyEndjob o ret true err tr =
        drvCleanup ret true err (tr ++ [Ev.endJob true]) := by
      simp [destroyEndjob, hp]
    rw [heq]
    constructor
    · simp only [drvCleanup]
      rw [List.append_assoc, noVmUseAfterRelease_append tr _ h]
      decide
    · intro hm
      exfalso
      simp only [drvCleanup, List.append_assoc, List.mem_append] at hm
      rcases hm with hm | hm
      · exact absurd hm hmem
      · simp at hm

/-- Every run of `qemudDomainSuspend` either exits before taking the
job, or exits through `suspEndjob` with a release-free prefix trace. -/
theorem susp_classify (o : SuspOracle) :
    qemudDomainSuspend o =
      { ret := -1, vmNull := true, err := some ErrMsg.noDomain, trace := [] } ∨
    qemudDomainSuspend o = drvCleanup (-1) true (some ErrMsg.notRunning) [] ∨
    qemudDomainSuspend o = drvCleanup (-1) true Option.none [Ev.beginJob false] ∨
    (∃ ret err tr, qemudDomainSuspend o = suspEndjob o ret err tr ∧
      tr.all (fun e => !releaseZero e) = true) := by
  unfold qemudDomainSuspend
  split_ifs <;>
    first
      | exact Or.inl rfl
      | exact Or.inr (Or.inl rfl)
      | exact Or.inr (Or.inr (Or.inl rfl))
      | exact Or.inr (Or.inr (Or.inr ⟨_, _, _, rfl, by simp [releaseZero]⟩))

/-- Every run of `qemuDomainAbortJob` either exits before taking the
job, or exits through `abortEndjob` with a release-free prefix trace. -/
theorem abort_classify (o : AbortOracle) :
    qemuDomainAbortJob o =
      { ret := -1, vmNull := true, err := some ErrMsg.noDomain, trace := [] } ∨
    qemuDomainAbortJob o = drvCleanup (-1) true Option.none [Ev.beginJob false] ∨
    (∃ ret err tr, qemuDomainAbortJob o = abortEndjob o ret err tr ∧
      tr.all (fun e => !releaseZero e) = true) := by
  unfold qemuDomainAbortJob
  split_ifs <;>
    first
      | exact Or.inl rfl
      | exact Or.inr (Or.inl rfl)
      | exact Or.inr (Or.inr ⟨_, _, _, rfl, by simp [releaseZero]⟩)

/-- Every run of `qemuDomainDestroyFlags` exits through one of the
shapes below. -/
theorem destroy_classify (o : DestroyOracle) :
    qemuDomainDestroyFlags o =
      { ret := -1, vmNull := true, err := some ErrMsg.noDomain, trace := [] } ∨
    qemuDomainDestroyFlags o = drvCleanup (-1) true (some ErrMsg.killFailed) [] ∨
    qemuDomainDestroyFlags o = drvCleanup (-1) true Option.none [Ev.beginJob false] ∨
    qemuDomainDestroyFlags o =
      destroyEndjob o (-1) true (some ErrMsg.notRunning) [Ev.beginJob true] ∨
    (o.persistent = false ∧
      qemuDomainDestroyFlags o =
        destroyEndjob o 0 false Option.none
          ([Ev.beginJob true, Ev.processStop] ++ [Ev.endJob o.endPos] ++
            (if o.endPos then [Ev.removeInactive] else []))) ∨
    (o.persistent = true ∧
      qemuDomainDestroyFlags o =
        destroyEndjob o 0 true Option.none [Ev.beginJob true, Ev.processStop]) := by
  unfold qemuDomainDestroyFlags
  split_ifs with h1 h2 h3 h4 h5 <;>
    first
      | exact Or.inl rfl
      | exact Or.inr (Or.inl rfl)
      | exact Or.inr (Or.inr (Or.inl rfl))
      | exact Or.inr (Or.inr (Or.inr (Or.inl rfl)))
      | exact Or.inr (Or.inr (Or.inr (Or.inr (Or.inl
          ⟨by simp_all, rfl⟩))))
      | exact Or.inr (Or.inr (Or.inr (Or.inr (Or.inr
          ⟨by simp_all, rfl⟩))))

/-- Claim C4: in the cited public operations (`qemudDomainSuspend`,
`qemuDomainDestroyFlags`, `qemuDomainAbortJob`), a zero return from
EndJob is immediately followed by clearing the `vm` pointer and no
further access to the domain object on that path; and in the destroy
path of a transient (non-persistent) domain that has been stopped, a
positive EndJob return is immediately followed by removing the inactive
domain object. -/
theorem end_job_zero_clears_reference :
    ∀ (s : SuspOracle) (d : DestroyOracle) (a : AbortOracle),
    (noVmUseAfterRelease (qemudDomainSuspend s).trace = true ∧
      (Ev.endJob false ∈ (qemudDomainSuspend s).trace →
        (qemudDomainSuspend s).vmNull = true)) ∧
    (noVmUseAfterRelease (qemuDomainDestroyFlags d).trace = true ∧
      (Ev.endJob false ∈ (qemuDomainDestroyFlags d).trace →
        (qemuDomainDestroyFlags d).vmNull = true)) ∧
    (d.found = true → (d.graceful && !d.killOk) = false → d.beginOk = true →
      d.activeAfterBegin = true → d.persistent = false → d.endPos = true →
      List.IsInfix [Ev.endJob true, Ev.removeInactive]
        (qemuDomainDestroyFlags d).trace) ∧
    (noVmUseAfterRelease (qemuDomainAbortJob a).trace = true ∧
      (Ev.endJob false ∈ (qemuDomainAbortJob a).trace →
        (qemuDomainAbortJob a).vmNull = true)) := by
  intro s d a
  refine ⟨?_, ?_, ?_, ?_⟩
  · rcases susp_classify s with h | h | h | ⟨ret, err, tr, h, hall⟩ <;> rw [h]
    · exact ⟨rfl, by decide⟩
    · exact ⟨rfl, by decide⟩
    · exact ⟨rfl, by decide⟩
    · exact suspEndjob_release s ret err tr hall
  · rcases destroy_classify d with h | h | h | h | ⟨hp, h⟩ | ⟨hp, h⟩ <;> rw [h]
    · exact ⟨rfl, by decide⟩
    · exact ⟨rfl, by decide⟩
    · exact ⟨rfl, by decide⟩
    · exact destroyEndjob_release d (-1) (some ErrMsg.notRunning)
        [Ev.beginJob true] (by decide)
    · cases he : d.endPos <;>
        refine ⟨?_, ?_⟩ <;>
        simp [destroyEndjob, drvCleanup, he, noVmUseAfterRelease, releaseZero,
          touchesVm]
    · exact destroyEndjob_release d 0 Option.none
        [Ev.beginJob true, Ev.processStop] (by decide)
  · intro hf hk hb ha hp he
    have h : (qemuDomainDestroyFlags d).trace =
        [Ev.beginJob true, Ev.processStop, Ev.endJob true, Ev.removeInactive] := by
      simp [qemuDomainDestroyFlags, destroyEndjob, drvCleanup, hf, hk, hb, ha, hp, he]
    rw [h]
    exact ⟨[Ev.beginJob true, Ev.processStop], [], rfl⟩
  · rcases abort_classify a with h | h | ⟨ret, err, tr, h, hall⟩ <;> rw [h]
    · exact ⟨rfl, by decide⟩
    · exact ⟨rfl, by decide⟩
    · exact abortEndjob_release a ret err tr hall

/-- Witness for the hypotheses of `end_job_zero_clears_reference`:
destroy of a transient stopped domain removes the inactive object. -/
theorem end_job_zero_clears_reference_witness :
    List.IsInfix [Ev.endJob true, Ev.removeInactive]
      (qemuDomainDestroyFlags ⟨true, false, true, true, true, false, true⟩).trace :=
  (end_job_zero_clears_reference
    ⟨true, true, true, true, AsyncJob.none, DomState.running, true, true, true⟩
    ⟨true, false, true, true, true, false, true⟩
    ⟨true, true, true, AsyncJob.save, false, true, true⟩).2.2.1
    rfl rfl rfl rfl rfl rfl

/-- Claim C6: `qemuDomainAbortJob`, after acquiring the ABORT sync job,
fails with an operation-invalid error if the domain is not running, if
no async job is active, if the async job is a memory-only dump, or if
it is an incoming migration; in all remaining cases it sets the
cooperative abort flag and issues a migrate-cancel monitor command. -/
theorem abort_job_case_analysis :
    ∀ o : AbortOracle, o.found = true → o.beginOk = true →
    ((o.active = false →
      (qemuDomainAbortJob o).ret = -1 ∧
      (qemuDomainAbortJob o).err = some ErrMsg.notRunning ∧
      Ev.abortFlag ∉ (qemuDomainAbortJob o).trace ∧
      (∀ b, Ev.migrateCancel b ∉ (qemuDomainAbortJob o).trace)) ∧
    (o.active = true → (o.asyncJob = AsyncJob.none ∨ o.dumpMemOnly = true) →
      (qemuDomainAbortJob o).ret = -1 ∧
      (qemuDomainAbortJob o).err = some ErrMsg.noJobActive ∧
      Ev.abortFlag ∉ (qemuDomainAbortJob o).trace ∧
      (∀ b, Ev.migrateCancel b ∉ (qemuDomainAbortJob o).trace)) ∧
    (o.active = true → o.dumpMemOnly = false →
      o.asyncJob = AsyncJob.migrationIn →
      (qemuDomainAbortJob o).ret = -1 ∧
      (qemuDomainAbortJob o).err = some ErrMsg.cannotAbortIncoming ∧
      Ev.abortFlag ∉ (qemuDomainAbortJob o).trace ∧
      (∀ b, Ev.migrateCancel b ∉ (qemuDomainAbortJob o).trace)) ∧
    (o.active = true → o.dumpMemOnly = false →
      o.asyncJob ≠ AsyncJob.none → o.asyncJob ≠ AsyncJob.migrationIn →
      List.IsInfix [Ev.abortFlag, Ev.enterMon, Ev.migrateCancel o.cancelOk,
        Ev.exitMon] (qemuDomainAbortJob o).trace ∧
      (qemuDomainAbortJob o).ret = (if o.cancelOk then 0 else -1) ∧
      (qemuDomainAbortJob o).err = Option.none)) := by
  intro o hf hb
  refine ⟨?_, ?_, ?_, ?_⟩
  · intro ha
    cases he : o.endPos <;>
      simp [qemuDomainAbortJob, abortEndjob, drvCleanup, hf, hb, ha, he]
  · intro ha hj
    rcases hj with hj | hj <;>
      cases he : o.endPos <;>
      simp [qemuDomainAbortJob, abortEndjob, drvCleanup, hf, hb, ha, hj, he]
  · intro ha hd hj
    cases he : o.endPos <;>
      simp [qemuDomainAbortJob, abortEndjob, drvCleanup, hf, hb, ha, hd, hj, he]
  · intro ha hd hj1 hj2
    have htr : (qemuDomainAbortJob o).trace =
        [Ev.beginJob true] ++
          [Ev.abortFlag, Ev.enterMon, Ev.migrateCancel o.cancelOk, Ev.exitMon] ++
          [Ev.endJob o.endPos] ++
          (if o.endPos then [Ev.unlockVm] else []) ∧
        (qemuDomainAbortJob o).ret = (if o.cancelOk then 0 else -1) ∧
        (qemuDomainAbortJob o).err = Option.none := by
      cases he : o.endPos <;>
        simp [qemuDomainAbortJob, abortEndjob, drvCleanup, hf, hb, ha, hd,
          hj1, hj2, he]
    refine ⟨?_, htr.2.1, htr.2.2⟩
    rw [htr.1]
    exact ⟨[Ev.beginJob true],
      [Ev.endJob o.endPos] ++ (if o.endPos then [Ev.unlockVm] else []),
      by simp⟩

/-- Witness for the hypotheses of `abort_job_case_analysis`: aborting a
SAVE async job issues the cooperative abort and a migrate-cancel. -/
theorem abort_job_case_analysis_witness :
    List.IsInfix [Ev.abortFlag, Ev.enterMon, Ev.migrateCancel true, Ev.exitMon]
      (qemuDomainAbortJob ⟨true, true, true, AsyncJob.save, false, true, true⟩).trace ∧
    (qemuDomainAbortJob ⟨true, true, true, AsyncJob.save, false, true, true⟩).ret =
      (if true then 0 else -1) ∧
    (qemuDomainAbortJob ⟨true, true, true, AsyncJob.save, false, true, true⟩).err =
      Option.none :=
  (abort_job_case_analysis ⟨true, true, true, AsyncJob.save, false, true, true⟩
    rfl rfl).2.2.2 rfl rfl (by decide) (by decide)

/-- Claim C7: with change protection, Begin3 starts the MIGRATION_OUT
async job, registers the close callback and leaves the async job open
when returning (it is ended within Begin3 only on error); Confirm3
requires the MIGRATION_OUT job to still be active, advances the phase
to CONFIRM3_CANCELLED when cancelled and CONFIRM3 otherwise,
unregisters the close callback, and finishes the async job before
returning. -/
theorem migration_change_protection_job :
    ∀ (ob : Begin3Oracle) (oc : Confirm3Oracle) (s : MigState),
    (ob.found = true → ob.changeProtection = true → s.asyncJob = AsyncJob.none →
      ((ob.jobStartOk = true → ob.activeVm = true → ob.ejectOk = true →
        ob.migBeginOk = true → ob.cbSetOk = true → ob.contPos = true →
        (qemuDomainMigrateBegin3 ob s).xmlOk = true ∧
        (qemuDomainMigrateBegin3 ob s).state.asyncJob = AsyncJob.migrationOut ∧
        (qemuDomainMigrateBegin3 ob s).state.closeCb = true ∧
        (qemuDomainMigrateBegin3 ob s).state.phase = MigPhase.begin3) ∧
      (ob.jobStartOk = true →
        (ob.activeVm = false ∨ ob.ejectOk = false ∨ ob.migBeginOk = false ∨
          ob.cbSetOk = false) →
        (qemuDomainMigrateBegin3 ob s).state.asyncJob = AsyncJob.none))) ∧
    (oc.found = true →
      ((s.asyncJob ≠ AsyncJob.migrationOut →
        (qemuDomainMigrateConfirm3 oc s).ret = -1 ∧
        (qemuDomainMigrateConfirm3 oc s).state = s ∧
        (∀ p, Ev.startPhase p ∉ (qemuDomainMigrateConfirm3 oc s).trace)) ∧
      (s.asyncJob = AsyncJob.migrationOut →
        (qemuDomainMigrateConfirm3 oc s).state.asyncJob = AsyncJob.none ∧
        (qemuDomainMigrateConfirm3 oc s).state.closeCb = false ∧
        List.IsInfix
          [Ev.startPhase (if oc.cancelled then MigPhase.confirm3_cancelled
             else MigPhase.confirm3),
           Ev.closeCbUnset, Ev.jobFinishEv oc.finishPos]
          (qemuDomainMigrateConfirm3 oc s).trace))) := by
  intro ob oc s
  constructor
  · intro hf hcp hs
    constructor
    · intro h1 h2 h3 h4 h5 h6
      simp [qemuDomainMigrateBegin3, qemuMigrationJobStart,
        qemuMigrationJobStartPhase, qemuDriverCloseCallbackSet,
        hf, hcp, hs, h1, h2, h3, h4, h5, h6]
    · intro h1 h2
      rcases h2 with h2 | h2 | h2 | h2 <;>
        simp [qemuDomainMigrateBegin3, qemuMigrationJobStart, begin3Endjob,
          qemuMigrationJobFinish, qemuMigrationJobStartPhase,
          qemuDriverCloseCallbackSet, hf, hcp, hs, h1, h2] <;>
        split_ifs <;>
        simp [qemuMigrationJobFinish]
  · intro hf
    constructor
    · intro hs
      have : qemuMigrationJobIsActive s AsyncJob.migrationOut = false := by
        simp [qemuMigrationJobIsActive, hs]
      simp [qemuDomainMigrateConfirm3, hf, this]
    · intro hs
      have hact : qemuMigrationJobIsActive s AsyncJob.migrationOut = true := by
        simp [qemuMigrationJobIsActive, hs]
      have htr : (qemuDomainMigrateConfirm3 oc s).state.asyncJob = AsyncJob.none ∧
          (qemuDomainMigrateConfirm3 oc s).state.closeCb = false ∧
          ∃ tail, (qemuDomainMigrateConfirm3 oc s).trace =
            [Ev.startPhase (if oc.cancelled then MigPhase.confirm3_cancelled
               else MigPhase.confirm3),
             Ev.closeCbUnset, Ev.jobFinishEv oc.finishPos] ++ tail := by
        simp only [qemuDomainMigrateConfirm3, hf, hact, Bool.not_true,
          Bool.false_eq_true, if_false, qemuMigrationJobStartPhase,
          qemuDriverCloseCallbackUnset, qemuMigrationJobFinish]
        split_ifs <;> simp
      refine ⟨htr.1, htr.2.1, ?_⟩
      obtain ⟨tail, ht⟩ := htr.2.2
      rw [ht]
      exact ⟨[], tail, rfl⟩

/-- Witness for the hypotheses of `migration_change_protection_job`:
a successful protected Begin3 leaves the job open with the callback
registered, and Confirm3 on the resulting state finishes it. -/
theorem migration_change_protection_job_witness :
    (qemuDomainMigrateBegin3
        ⟨true, true, true, true, true, true, true, true, true, true, true⟩
        ⟨AsyncJob.none, MigPhase.none, false⟩).state.asyncJob =
      AsyncJob.migrationOut ∧
    (qemuDomainMigrateConfirm3 ⟨true, false, true, true, true, true, false⟩
        ⟨AsyncJob.migrationOut, MigPhase.begin3, true⟩).state.asyncJob =
      AsyncJob.none :=
  ⟨((migration_change_protection_job
      ⟨true, true, true, true, true, true, true, true, true, true, true⟩
      ⟨true, false, true, true, true, true, false⟩
      ⟨AsyncJob.none, MigPhase.none, false⟩).1 rfl rfl rfl).1
      rfl rfl rfl rfl rfl rfl |>.2.1,
   ((migration_change_protection_job
      ⟨true, true, true, true, true, true, true, true, true, true, true⟩
      ⟨true, false, true, true, true, true, false⟩
      ⟨AsyncJob.migrationOut, MigPhase.begin3, true⟩).2 rfl).2 rfl |>.1⟩

/-- Claim C8: for a running domain, GetJobInfo returns the stored
async-job info with the elapsed time recomputed as now - start exactly
when an async job is active and it is not a memory-only dump; otherwise
it returns a zeroed info with type NONE; for a non-running domain it
fails with 'domain is not running'. -/
theorem get_job_info_reports :
    ∀ o : GJIOracle, o.found = true →
    ((o.active = true → o.asyncJob ≠ AsyncJob.none → o.dumpMemOnly = false →
      o.timeOk = true →
      qemuDomainGetJobInfo o =
        ⟨0, some { o.stored with
            timeElapsed := (o.now : Int) - (o.jobStart : Int) }, Option.none⟩) ∧
    (o.active = true → (o.asyncJob = AsyncJob.none ∨ o.dumpMemOnly = true) →
      qemuDomainGetJobInfo o =
        ⟨0, some ⟨VIR_DOMAIN_JOB_NONE, 0, 0⟩, Option.none⟩) ∧
    (o.active = false →
      qemuDomainGetJobInfo o = ⟨-1, Option.none, some ErrMsg.notRunning⟩)) := by
  intro o hf
  refine ⟨?_, ?_, ?_⟩
  · intro ha hj hd ht
    simp [qemuDomainGetJobInfo, hf, ha, hj, hd, ht]
  · intro ha hj
    rcases hj with hj | hj <;> simp [qemuDomainGetJobInfo, hf, ha, hj]
  · intro ha
    simp [qemuDomainGetJobInfo, hf, ha]

/-- Witness for the hypotheses of `get_job_info_reports`: an active
SAVE async job reports the stored info with recomputed elapsed time. -/
theorem get_job_info_reports_witness :
    qemuDomainGetJobInfo
      ⟨true, true, AsyncJob.save, false, true, ⟨2, 7, 5⟩, 100, 250⟩ =
      ⟨0, some { (⟨2, 7, 5⟩ : JobInfo) with
          timeElapsed := ((250 : Nat) : Int) - ((100 : Nat) : Int) }, Option.none⟩ :=
  (get_job_info_reports
    ⟨true, true, AsyncJob.save, false, true, ⟨2, 7, 5⟩, 100, 250⟩ rfl).1
    rfl (by decide) rfl rfl

/-- Claim C9: for a running domain, GetControlInfo reports ERROR when a
monitor error is recorded; else OCCUPIED with stateTime = now -
monitor-entry time when a sync job is active and the monitor has been
entered; else JOB with stateTime = now - job start when a sync job is
active but the monitor has not been entered; else OK. -/
theorem get_control_info_reports :
    ∀ o : CtlOracle, o.found = true → o.active = true →
    ((o.monError = true →
      qemuDomainGetControlInfo o = ⟨0, some CtlState.error, 0, Option.none⟩) ∧
    (o.monError = false → o.jobActive = true → o.monStart = 0 → o.timeOk = true →
      qemuDomainGetControlInfo o =
        ⟨0, some CtlState.job, (o.now : Int) - (o.jobStart : Int), Option.none⟩) ∧
    (o.monError = false → o.jobActive = true → o.monStart ≠ 0 → o.timeOk = true →
      qemuDomainGetControlInfo o =
        ⟨0, some CtlState.occupied, (o.now : Int) - (o.monStart : Int), Option.none⟩) ∧
    (o.monError = false → o.jobActive = false →
      qemuDomainGetControlInfo o = ⟨0, some CtlState.ok, 0, Option.none⟩)) := by
  intro o hf ha
  refine ⟨?_, ?_, ?_, ?_⟩ <;> intros <;>
    simp_all [qemuDomainGetControlInfo]

/-- Witness for the hypotheses of `get_control_info_reports`: a sync
job active with the monitor entered reports OCCUPIED. -/
theorem get_control_info_reports_witness :
    qemuDomainGetControlInfo ⟨true, true, false, true, 40, 10, 90, true⟩ =
      ⟨0, some CtlState.occupied, ((90 : Nat) : Int) - ((40 : Nat) : Int),
        Option.none⟩ :=
  (get_control_info_reports ⟨true, true, false, true, 40, 10, 90, true⟩
    rfl rfl).2.2.1 rfl rfl (by decide) rfl

/-- The snapshot `endjob:` tail only appends resume/end-async events. -/
theorem snapEndjob_trace (o : SnapOracle) (ret : Int) (vm resume : Bool)
    (thaw : Int) (tr : List Ev) :
    (snapEndjob o ret vm resume thaw tr).trace = tr ++ snapTail o vm resume := by
  unfold snapEndjob snapTail
  split_ifs <;> simp_all

theorem snapTail_all (o : SnapOracle) (vm resume : Bool) :
    (snapTail o vm resume).all snapTailEv = true := by
  unfold snapTail
  split_ifs <;> simp [snapTailEv]

/-- Membership of a non-tail event in the snapshot result trace is
membership in the prefix trace. -/
theorem mem_snapEndjob (o : SnapOracle) (ret : Int) (vm resume : Bool)
    (thaw : Int) (tr : List Ev) (e : Ev) (he : snapTailEv e = false) :
    e ∈ (snapEndjob o ret vm resume thaw tr).trace ↔ e ∈ tr := by
  rw [snapEndjob_trace, List.mem_append]
  constructor
  · rintro (h | h)
    · exact h
    · have := List.all_eq_true.mp (snapTail_all o vm resume) _ h
      rw [he] at this
      exact absurd this (by simp)
  · exact Or.inl

/-- An infix of the prefix trace is an infix of the snapshot result
trace. -/
theorem isInfix_snapEndjob {l : List Ev} (o : SnapOracle) (ret : Int)
    (vm resume : Bool) (thaw : Int) (tr : List Ev) (h : List.IsInfix l tr) :
    List.IsInfix l (snapEndjob o ret vm resume thaw tr).trace := by
  rw [snapEndjob_trace]
  obtain ⟨s, t, rfl⟩ := h
  exact ⟨s, t ++ snapTail o vm resume, by simp⟩

theorem not_mem_snapPre (o : SnapOracle) (e : Ev) (he : snapPreEv e = false) :
    e ∉ snapPre o := by
  unfold snapPre
  split_ifs <;> intro hm <;> simp only [List.mem_append, List.mem_singleton,
    List.not_mem_nil, or_false] at hm <;>
    first
      | (rw [hm] at he; exact absurd he (by simp [snapPreEv]))
      | (rcases hm with hm | hm <;> rw [hm] at he <;>
          exact absurd he (by simp [snapPreEv]))

theorem not_mem_snapTail (o : SnapOracle) (vm resume : Bool) (e : Ev)
    (he : snapTailEv e = false) : e ∉ snapTail o vm resume := by
  intro hm
  have := List.all_eq_true.mp (snapTail_all o vm resume) _ hm
  rw [he] at this
  exact absurd this (by simp)

theorem mem_snapPre_iff (o : SnapOracle) (e : Ev) :
    e ∈ snapPre o ↔ e = Ev.beginAsync true ∨
      ((o.running && ((o.memory && !o.live) ||
        (!o.memory && o.atomic && !o.transaction))) = true ∧
        e = Ev.stopCPUs o.stopOk) := by
  unfold snapPre
  split_ifs with hc <;> simp [hc]

theorem mem_snapTail_iff (o : SnapOracle) (vm resume : Bool) (e : Ev) :
    e ∈ snapTail o vm resume ↔
      ((resume && vm && o.activeAtEnd && !o.resumeOk) = true ∧
        e = Ev.startCPUs false) ∨
      (¬(resume && vm && o.activeAtEnd && !o.resumeOk) = true ∧
        (resume && vm && o.activeAtEnd) = true ∧ e = Ev.startCPUs true) ∨
      (¬(resume && vm && o.activeAtEnd && !o.resumeOk) = true ∧
        vm = true ∧ e = Ev.endAsync o.endAsyncPos) := by
  unfold snapTail
  split_ifs <;> simp_all <;> aesop

/-- Every run of `qemuDomainSnapshotCreateActiveExternal` exits through
one of the shapes below (W is the widened memory-save mask, D the
default mask). -/
theorem snap_classify (o : SnapOracle) :
    qemuDomainSnapshotCreateActiveExternal o =
      { ret := -1, trace := [Ev.beginAsync false] } ∨
    qemuDomainSnapshotCreateActiveExternal o =
      snapEndjob o (-1) true false (-1) [Ev.beginAsync true] ∨
    qemuDomainSnapshotCreateActiveExternal o =
      snapEndjob o (-1) true o.running (snapThaw o) (snapPre o) ∨
    (o.memory = true ∧ qemuDomainSnapshotCreateActiveExternal o =
      snapEndjob o (-1) true o.running (snapThaw o)
        (snapPre o ++ [Ev.setMask SNAPSHOT_MEMORY_JOB_MASK])) ∨
    (o.memory = true ∧ qemuDomainSnapshotCreateActiveExternal o =
      snapEndjob o (-1) true o.running (snapThaw o)
        (snapPre o ++ [Ev.setMask SNAPSHOT_MEMORY_JOB_MASK,
          Ev.saveMem SNAPSHOT_MEMORY_JOB_MASK false])) ∨
    (o.memory = true ∧ qemuDomainSnapshotCreateActiveExternal o =
      snapEndjob o (-1) true o.running (snapThaw o)
        (snapPre o ++ [Ev.setMask SNAPSHOT_MEMORY_JOB_MASK,
          Ev.saveMem SNAPSHOT_MEMORY_JOB_MASK true,
          Ev.setMask DEFAULT_JOB_MASK,
          Ev.diskSnap DEFAULT_JOB_MASK false])) ∨
    (o.memory = true ∧ qemuDomainSnapshotCreateActiveExternal o =
      snapEndjob o 0 false false 0
        (snapPre o ++ [Ev.setMask SNAPSHOT_MEMORY_JOB_MASK,
          Ev.saveMem SNAPSHOT_MEMORY_JOB_MASK true,
          Ev.setMask DEFAULT_JOB_MASK,
          Ev.diskSnap DEFAULT_JOB_MASK true,
          Ev.processStop, Ev.endAsync o.endAsyncPos])) ∨
    (o.memory = true ∧ qemuDomainSnapshotCreateActiveExternal o =
      snapEndjob o 0 true o.running (snapThaw o)
        (snapPre o ++ [Ev.setMask SNAPSHOT_MEMORY_JOB_MASK,
          Ev.saveMem SNAPSHOT_MEMORY_JOB_MASK true,
          Ev.setMask DEFAULT_JOB_MASK,
          Ev.diskSnap DEFAULT_JOB_MASK true])) ∨
    (o.memory = false ∧ qemuDomainSnapshotCreateActiveExternal o =
      snapEndjob o (-1) true o.running (snapThaw o)
        (snapPre o ++ [Ev.diskSnap DEFAULT_JOB_MASK false])) ∨
    (o.memory = false ∧ qemuDomainSnapshotCreateActiveExternal o =
      snapEndjob o 0 false false 0
        (snapPre o ++ [Ev.diskSnap DEFAULT_JOB_MASK true,
          Ev.processStop, Ev.endAsync o.endAsyncPos])) ∨
    (o.memory = false ∧ qemuDomainSnapshotCreateActiveExternal o =
      snapEndjob o 0 true o.running (snapThaw o)
        (snapPre o ++ [Ev.diskSnap DEFAULT_JOB_MASK true])) := by
  by_cases h1 : o.beginAsyncOk
  case neg =>
    exact Or.inl (by simp [qemuDomainSnapshotCreateActiveExternal, h1])
  by_cases h2 : o.quiesce && !o.freezeOk
  case pos =>
    exact Or.inr (Or.inl
      (by simp [qemuDomainSnapshotCreateActiveExternal, h1, h2]))
  by_cases hnp : o.running &&
      ((o.memory && !o.live) || (!o.memory && o.atomic && !o.transaction))
  · by_cases h3 : o.stopOk
    case neg =>
      refine Or.inr (Or.inr (Or.inl ?_))
      simp [qemuDomainSnapshotCreateActiveExternal, snapPre, snapThaw,
        h1, h2, hnp, h3]
    by_cases h4 : o.activeAfterStop
    case neg =>
      refine Or.inr (Or.inr (Or.inl ?_))
      simp [qemuDomainSnapshotCreateActiveExternal, snapPre, snapThaw,
        h1, h2, hnp, h3, h4]
    by_cases h5 : o.memory
    · by_cases h6 : o.xmlOk
      case neg =>
        refine Or.inr (Or.inr (Or.inr (Or.inl ⟨h5, ?_⟩)))
        simp [qemuDomainSnapshotCreateActiveExternal, snapPre, snapThaw,
          h1, h2, hnp, h3, h4, h5, h6]
      by_cases h7 : o.saveMemOk
      case neg =>
        refine Or.inr (Or.inr (Or.inr (Or.inr (Or.inl ⟨h5, ?_⟩))))
        simp [qemuDomainSnapshotCreateActiveExternal, snapPre, snapThaw,
          h1, h2, hnp, h3, h4, h5, h6, h7]
      by_cases h8 : o.diskSnapOk
      case neg =>
        refine Or.inr (Or.inr (Or.inr (Or.inr (Or.inr (Or.inl ⟨h5, ?_⟩)))))
        simp [qemuDomainSnapshotCreateActiveExternal, snapPre, snapThaw,
          h1, h2, hnp, h3, h4, h5, h6, h7, h8]
      by_cases h9 : o.halt
      · refine Or.inr (Or.inr (Or.inr (Or.inr (Or.inr (Or.inr
          (Or.inl ⟨h5, ?_⟩))))))
        simp [qemuDomainSnapshotCreateActiveExternal, snapPre, snapThaw,
          h1, h2, hnp, h3, h4, h5, h6, h7, h8, h9]
      · refine Or.inr (Or.inr (Or.inr (Or.inr (Or.inr (Or.inr (Or.inr
          (Or.inl ⟨h5, ?_⟩)))))))
        simp [qemuDomainSnapshotCreateActiveExternal, snapPre, snapThaw,
          h1, h2, hnp, h3, h4, h5, h6, h7, h8, h9]
    · by_cases h8 : o.diskSnapOk
      case neg =>
        refine Or.inr (Or.inr (Or.inr (Or.inr (Or.inr (Or.inr (Or.inr
          (Or.inr (Or.inl ⟨by simpa using h5, ?_⟩))))))))
        simp [qemuDomainSnapshotCreateActiveExternal, snapPre, snapThaw,
          h1, h2, hnp, h3, h4, h5, h8]
      by_cases h9 : o.halt
      · refine Or.inr (Or.inr (Or.inr (Or.inr (Or.inr (Or.inr (Or.inr
          (Or.inr (Or.inr (Or.inl ⟨by simpa using h5, ?_⟩)))))))))
        simp [qemuDomainSnapshotCreateActiveExternal, snapPre, snapThaw,
          h1, h2, hnp, h3, h4, h5, h8, h9]
      · refine Or.inr (Or.inr (Or.inr (Or.inr (Or.inr (Or.inr (Or.inr
          (Or.inr (Or.inr (Or.inr ⟨by simpa using h5, ?_⟩)))))))))
        simp [qemuDomainSnapshotCreateActiveExternal, snapPre, snapThaw,
          h1, h2, hnp, h3, h4, h5, h8, h9]
  · by_cases h5 : o.memory
    · by_cases h6 : o.xmlOk
      case neg =>
        refine Or.inr (Or.inr (Or.inr (Or.inl ⟨h5, ?_⟩)))
        simp_all [qemuDomainSnapshotCreateActiveExternal, snapPre, snapThaw]
        split_ifs <;> simp_all
      by_cases h7 : o.saveMemOk
      case neg =>
        refine Or.inr (Or.inr (Or.inr (Or.inr (Or.inl ⟨h5, ?_⟩))))
        simp_all [qemuDomainSnapshotCreateActiveExternal, snapPre, snapThaw]
        split_ifs <;> simp_all
      by_cases h8 : o.diskSnapOk
      case neg =>
        refine Or.inr (Or.inr (Or.inr (Or.inr (Or.inr (Or.inl ⟨h5, ?_⟩)))))
        simp_all [qemuDomainSnapshotCreateActiveExternal, snapPre, snapThaw]
        split_ifs <;> simp_all
      by_cases h9 : o.halt
      · refine Or.inr (Or.inr (Or.inr (Or.inr (Or.inr (Or.inr
          (Or.inl ⟨h5, ?_⟩))))))
        simp_all [qemuDomainSnapshotCreateActiveExternal, snapPre, snapThaw]
        split_ifs <;> simp_all
      · refine Or.inr (Or.inr (Or.inr (Or.inr (Or.inr (Or.inr (Or.inr
          (Or.inl ⟨h5, ?_⟩)))))))
        simp_all [qemuDomainSnapshotCreateActiveExternal, snapPre, snapThaw]
        split_ifs <;> simp_all
    · by_cases h8 : o.diskSnapOk
      case neg =>
        refine Or.inr (Or.inr (Or.inr (Or.inr (Or.inr (Or.inr (Or.inr
          (Or.inr (Or.inl ⟨by simpa using h5, ?_⟩))))))))
        simp_all [qemuDomainSnapshotCreateActiveExternal, snapPre, snapThaw]
        split_ifs <;> simp_all
      by_cases h9 : o.halt
      · refine Or.inr (Or.inr (Or.inr (Or.inr (Or.inr (Or.inr (Or.inr
          (Or.inr (Or.inr (Or.inl ⟨by simpa using h5, ?_⟩)))))))))
        simp_all [qemuDomainSnapshotCreateActiveExternal, snapPre, snapThaw]
        split_ifs <;> simp_all
      · refine Or.inr (Or.inr (Or.inr (Or.inr (Or.inr (Or.inr (Or.inr
          (Or.inr (Or.inr (Or.inr ⟨by simpa using h5, ?_⟩)))))))))
        simp_all [qemuDomainSnapshotCreateActiveExternal, snapPre, snapThaw]
        split_ifs <;> simp_all

/-- Claim C5: during an external-snapshot async job that includes a
memory image, the memory-save step runs under the mask widened to
exactly default + SUSPEND + MIGRATION_OP, the mask is restored to
exactly the default right after the memory save succeeds, and the disk
snapshots always run under the default mask. -/
theorem snapshot_memory_mask_widening :
    ∀ o : SnapOracle,
    (∀ m ok, Ev.saveMem m ok ∈ (qemuDomainSnapshotCreateActiveExternal o).trace →
      m = SNAPSHOT_MEMORY_JOB_MASK) ∧
    (∀ m ok, Ev.diskSnap m ok ∈ (qemuDomainSnapshotCreateActiveExternal o).trace →
      m = DEFAULT_JOB_MASK) ∧
    (∀ ok, Ev.saveMem SNAPSHOT_MEMORY_JOB_MASK ok ∈
        (qemuDomainSnapshotCreateActiveExternal o).trace → ok = true →
      List.IsInfix [Ev.saveMem SNAPSHOT_MEMORY_JOB_MASK true,
        Ev.setMask DEFAULT_JOB_MASK]
        (qemuDomainSnapshotCreateActiveExternal o).trace) ∧
    (o.memory = false →
      ∀ m, Ev.setMask m ∉ (qemuDomainSnapshotCreateActiveExternal o).trace) ∧
    SNAPSHOT_MEMORY_JOB_MASK =
      (DEFAULT_JOB_MASK ||| JOB_MASK SyncJob.suspend |||
        JOB_MASK SyncJob.migrationOp) := by
  intro o
  refine ⟨?_, ?_, ?_, ?_, rfl⟩
  · intro m ok hm
    rcases snap_classify o with h | h | h | ⟨h5, h⟩ | ⟨h5, h⟩ | ⟨h5, h⟩ |
        ⟨h5, h⟩ | ⟨h5, h⟩ | ⟨h5, h⟩ | ⟨h5, h⟩ | ⟨h5, h⟩ <;>
      rw [h] at hm <;>
      (try rw [snapEndjob_trace] at hm) <;>
      simp only [List.mem_append, mem_snapPre_iff, mem_snapTail_iff,
        List.mem_cons, List.mem_singleton, List.not_mem_nil,
        or_false, false_or] at hm <;>
      (try clear h) <;>
      (try casesm* _ ∨ _, _ ∧ _) <;> simp_all
  · intro m ok hm
    rcases snap_classify o with h | h | h | ⟨h5, h⟩ | ⟨h5, h⟩ | ⟨h5, h⟩ |
        ⟨h5, h⟩ | ⟨h5, h⟩ | ⟨h5, h⟩ | ⟨h5, h⟩ | ⟨h5, h⟩ <;>
      rw [h] at hm <;>
      (try rw [snapEndjob_trace] at hm) <;>
      simp only [List.mem_append, mem_snapPre_iff, mem_snapTail_iff,
        List.mem_cons, List.mem_singleton, List.not_mem_nil,
        or_false, false_or] at hm <;>
      (try clear h) <;>
      (try casesm* _ ∨ _, _ ∧ _) <;> simp_all
  · intro ok hm hok
    subst hok
    rcases snap_classify o with h | h | h | ⟨h5, h⟩ | ⟨h5, h⟩ | ⟨h5, h⟩ |
        ⟨h5, h⟩ | ⟨h5, h⟩ | ⟨h5, h⟩ | ⟨h5, h⟩ | ⟨h5, h⟩ <;>
      rw [h] at hm ⊢ <;>
      (try rw [snapEndjob_trace] at hm) <;>
      simp only [List.mem_append, mem_snapPre_iff, mem_snapTail_iff,
        List.mem_cons, List.mem_singleton, List.not_mem_nil,
        or_false, false_or] at hm <;>
      (try casesm* _ ∨ _, _ ∧ _) <;>
      first
        | (apply isInfix_snapEndjob
           refine ⟨snapPre o ++ [Ev.setMask SNAPSHOT_MEMORY_JOB_MASK],
             [Ev.diskSnap DEFAULT_JOB_MASK false], ?_⟩
           simp
           done)
        | (apply isInfix_snapEndjob
           refine ⟨snapPre o ++ [Ev.setMask SNAPSHOT_MEMORY_JOB_MASK],
             [Ev.diskSnap DEFAULT_JOB_MASK true, Ev.processStop,
              Ev.endAsync o.endAsyncPos], ?_⟩
           simp
           done)
        | (apply isInfix_snapEndjob
           refine ⟨snapPre o ++ [Ev.setMask SNAPSHOT_MEMORY_JOB_MASK],
             [Ev.diskSnap DEFAULT_JOB_MASK true], ?_⟩
           simp
           done)
        | simp_all
  · intro hnm m
    rcases snap_classify o with h | h | h | ⟨h5, h⟩ | ⟨h5, h⟩ | ⟨h5, h⟩ |
        ⟨h5, h⟩ | ⟨h5, h⟩ | ⟨h5, h⟩ | ⟨h5, h⟩ | ⟨h5, h⟩ <;>
      first
        | (rw [hnm] at h5
           simp at h5
           done)
        | (rw [h]
           intro hm
           simp at hm)
        | (rw [h, snapEndjob_trace]
           intro hm
           simp only [List.mem_append, mem_snapPre_iff, mem_snapTail_iff,
             List.mem_cons, List.mem_singleton, List.not_mem_nil,
             or_false, false_or] at hm
           clear h
           casesm* _ ∨ _, _ ∧ _ <;> simp_all)

/-- Witness for the hypotheses of `snapshot_memory_mask_widening`: in a
successful memory snapshot the restore of the default mask immediately
follows the memory save. -/
theorem snapshot_memory_mask_widening_witness :
    List.IsInfix [Ev.saveMem SNAPSHOT_MEMORY_JOB_MASK true,
      Ev.setMask DEFAULT_JOB_MASK]
      (qemuDomainSnapshotCreateActiveExternal
        ⟨true, false, true, true, true, false, false, false, true, true,
         true, true, true, false, true, true, true, true⟩).trace :=
  ((snapshot_memory_mask_widening
    ⟨true, false, true, true, true, false, false, false, true, true,
     true, true, true, false, true, true, true, true⟩).2.2.1 true
    (by decide) rfl)

end QemuDrv
